import Mathlib

/-!
# Verification of `aria-accordion.js` (Zigazou/aria-accordion)

Shallow embedding of the `AriaAccordion` class: the decorated accordion state
(the ARIA attributes the code reads and writes on the container, the generated
toggle buttons and the panels), the decoration pass `initAttributes`, and the
four event handlers (`focusButtonEventHandler`, `clickButtonEventHandler`,
`keydownButtonEventHandler`, `keydownPanelEventHandler`).

Modelling conventions:
* Attribute values are strings, exactly as the DOM stores them.  An attribute
  that may be absent is an `Option String` (`none` = attribute not present).
  `setAttribute(name, null)` stores the string "null", as the DOM coerces the
  value; this matters for `tabindex`.
* The panels of one accordion are kept in document order, and so are the
  generated buttons; the code inserts button `i` immediately before panel `i`,
  so document order inside the container is `button 0, panel 0, button 1,
  panel 1, ...` with the container root first.  `document.getElementById` is
  modelled over exactly that id space (the model takes the container subtree
  as the whole document; ids of unrelated page elements are out of scope).
* The container id (`this.root.id`) is taken as a given string `rootId`: the
  source generates a random one when the attribute is missing, and no claim
  depends on the random choice.
* CSS classes (`classList.add`), the generated button's copied label content
  and the `role` attributes are not observed by any claim and are omitted.
* JavaScript exceptions are `Except JsError`: a handler that throws is
  modelled by `.error`; in every such place all attribute writes of the
  remaining handler body are skipped, exactly as an uncaught exception would
  skip them.
-/

namespace AriaAccordion

/-! ## Generic list helpers -/

/-- Map a function receiving the element index, starting the count at `k`. -/
def mapFromIdx (f : Nat → α → α) : Nat → List α → List α
  | _, [] => []
  | k, a :: l => f k a :: mapFromIdx f (k + 1) l

/-- Replace element `i` of `l` by `f l[i]` (identity out of range):
`l[i].setAttribute(...)` on one DOM node of a `NodeList`. -/
def updateAt (l : List α) (i : Nat) (f : α → α) : List α :=
  mapFromIdx (fun j a => if j = i then f a else a) 0 l

/-- Apply `f` to every element except the one at index `i`: the
`forEach(x => if(current !== x) ...)` loops of the source, where `current`
is the element of the list at index `i` (DOM nodes are distinct objects, so
the identity test `current !== x` is the index test `i ≠ j`). -/
def mapOthers (l : List α) (i : Nat) (f : α → α) : List α :=
  mapFromIdx (fun j a => if j = i then a else f a) 0 l

/-! ## Data model -/

/-- The attributes of one generated toggle button that the code ever reads or
writes.  `tabindex = none` means the attribute is absent (a `button` element
is then in the tab order); the value "null" (written by
`setAttribute('tabindex', null)`) is an invalid integer, which the platform
treats like an absent attribute on a button.  `ariaHidden` is only ever
written if `document.getElementById` resolves an `aria-controls` value to
this button (an id collision). -/
structure ButtonState where
  id : String
  ariaControls : String
  ariaExpanded : String
  ariaSelected : String
  tabindex : Option String
  ariaHidden : Option String
deriving Repr, DecidableEq

/-- The attributes of one panel that the code ever reads or writes. -/
structure PanelState where
  id : String
  ariaLabelledby : String
  ariaHidden : String
deriving Repr, DecidableEq

/-- The mutable state of one decorated accordion: the container (root) id and
its possible `aria-hidden` attribute, plus the buttons and panels in document
order (button `i` immediately precedes panel `i`). -/
structure AccordionState where
  rootId : String
  rootAriaHidden : Option String
  buttons : List ButtonState
  panels : List PanelState
deriving Repr, DecidableEq

/-- The options the claims depend on, with the defaults of
`AriaAccordion.defaultConfig`.  Selector strings, CSS class affixes, the
template button node and the random-id seed are omitted: no claim observes
them. -/
structure AriaAccordionOptions where
  buttonsGeneratedContent : String := "text"
  buttonSuffixId : String := "_tab"
  multiselectable : Bool := true
  direction : String := "ltr"
deriving Repr, DecidableEq

/-- `AriaAccordion.defaultConfig` restricted to the modelled options. -/
def defaultConfig : AriaAccordionOptions := {}

/-- One pre-decoration panel as found in the markup: its `id` attribute
("" when absent, as `panel.id` yields), whether
`panel.querySelector(headersSelector)` finds a header, and whether
`panel.dataset.accordionOpen === 'true'`. -/
structure InputPanel where
  preId : String := ""
  hasHeader : Bool := true
  accordionOpen : Bool := false
deriving Repr, DecidableEq

/-- The JavaScript errors the modelled code can raise, plus the error type the
specification names.  The first three are `TypeError`s of the platform. -/
inductive JsError where
  /-- `initAttributes`: `header.innerHTML` / `header.innerText` where
  `header` is `null` because the panel at `index` has no matching header. -/
  | typeErrorNullHeader (index : Nat)
  /-- `keydownPanelEventHandler`: `panel.getAttribute` where `panel` is
  `null` because `event.target.querySelector(panelsSelector)` found no panel
  among the descendants of the event target. -/
  | typeErrorNullPanel
  /-- `keydownPanelEventHandler`: `this.root.getElementById` where
  `this.root` is an `Element`; `getElementById` exists only on `Document`,
  so the member is `undefined` and calling it throws. -/
  | typeErrorNoGetElementById
  /-- Modelled from the spec: the `MissingHeaderError` the specification says
  decoration fails with when a panel has no matching header descendant.  No
  such error class exists anywhere in the source. -/
  | missingHeaderError (index : Nat)
deriving Repr, DecidableEq

/-- Whether an error is the spec's `MissingHeaderError`. -/
def JsError.isMissingHeader : JsError → Bool
  | .missingHeaderError _ => true
  | _ => false

/-! ## Decoration (`initAttributes`) -/

/-- JavaScript `a || b` on strings: the empty string is falsy. -/
def jsOr (a b : String) : String := if a = "" then b else a

/-- The panel id assigned at ordinal `index`:
`(panel.id || this.root.id) + '-' + index` (line 121 of the source).  Note
the `'-' + index` suffix is appended even when the panel already has an id. -/
def assignedPanelId (rootId : String) (index : Nat) (p : InputPanel) : String :=
  jsOr p.preId rootId ++ "-" ++ Nat.repr index

/-- The generated button for the panel at ordinal `index`, following the
attribute writes of `initAttributes` in source order: `aria-expanded` starts
"false" and `tabIndex` starts "-1"; the open-by-default marker then rewrites
`aria-expanded` to "true"; finally ordinal 0 gets its `tabindex` attribute
removed. -/
def mkButton (opts : AriaAccordionOptions) (rootId : String) (index : Nat)
    (p : InputPanel) : ButtonState :=
  let panelId := assignedPanelId rootId index p
  let b : ButtonState :=
    { id := panelId ++ opts.buttonSuffixId
      ariaControls := panelId
      ariaExpanded := "false"
      ariaSelected := "false"
      tabindex := some "-1"
      ariaHidden := none }
  let b := if p.accordionOpen then { b with ariaExpanded := "true" } else b
  if index = 0 then { b with tabindex := none } else b

/-- The decorated panel at ordinal `index`: `aria-hidden` starts "true" and is
rewritten to "false" by the open-by-default marker. -/
def mkPanel (opts : AriaAccordionOptions) (rootId : String) (index : Nat)
    (p : InputPanel) : PanelState :=
  let panelId := assignedPanelId rootId index p
  let pa : PanelState :=
    { id := panelId
      ariaLabelledby := panelId ++ opts.buttonSuffixId
      ariaHidden := "true" }
  if p.accordionOpen then { pa with ariaHidden := "false" } else pa

/-- Decorate one panel.  When the panel has no header,
`panel.querySelector(headersSelector)` is `null` and the very next statement
(`header.innerHTML` or `header.innerText`, whichever branch of the
`buttonsGeneratedContent` ternary runs) throws a `TypeError`, before any
attribute of this panel or its button is written. -/
def initPanel (opts : AriaAccordionOptions) (rootId : String) (index : Nat)
    (p : InputPanel) : Except JsError (ButtonState × PanelState) :=
  if p.hasHeader then
    .ok (mkButton opts rootId index p, mkPanel opts rootId index p)
  else
    .error (.typeErrorNullHeader index)

/-- The `panels.forEach` of `initAttributes`, panel ordinals starting at `k`.
An exception aborts the whole pass at the first offending panel. -/
def initPanels (opts : AriaAccordionOptions) (rootId : String) :
    Nat → List InputPanel → Except JsError (List ButtonState × List PanelState)
  | _, [] => .ok ([], [])
  | k, p :: ps =>
    match initPanel opts rootId k p with
    | .error e => .error e
    | .ok (b, pa) =>
      match initPanels opts rootId (k + 1) ps with
      | .error e => .error e
      | .ok (bs, pas) => .ok (b :: bs, pa :: pas)

/-- `initAttributes`: the decoration pass over a container whose id is
`rootId` and whose panels, in document order, are `ps`. -/
def initAttributes (opts : AriaAccordionOptions) (rootId : String)
    (ps : List InputPanel) : Except JsError AccordionState :=
  match initPanels opts rootId 0 ps with
  | .error e => .error e
  | .ok (bs, pas) =>
    .ok { rootId := rootId, rootAriaHidden := none, buttons := bs, panels := pas }

/-! ## Key codes and key events -/

def keyPageUp : Nat := 33
def keyPageDown : Nat := 34
def keyEnd : Nat := 35
def keyHome : Nat := 36
def keyLeft : Nat := 37
def keyUp : Nat := 38
def keyRight : Nat := 39
def keyDown : Nat := 40

/-- The `prev`/`next`/`first`/`last` key sets of `AriaAccordion.ltrKeys` and
`AriaAccordion.rtlKeys`. -/
structure DirectionKeys where
  prev : List Nat
  next : List Nat
  first : Nat
  last : Nat
deriving Repr, DecidableEq

def ltrKeys : DirectionKeys :=
  { prev := [keyUp, keyLeft], next := [keyDown, keyRight]
    first := keyHome, last := keyEnd }

def rtlKeys : DirectionKeys :=
  { prev := [keyUp, keyRight], next := [keyDown, keyLeft]
    first := keyHome, last := keyEnd }

/-- `this.options.direction === 'ltr' ? AriaAccordion.ltrKeys :
AriaAccordion.rtlKeys`. -/
def directionKeys (opts : AriaAccordionOptions) : DirectionKeys :=
  if opts.direction = "ltr" then ltrKeys else rtlKeys

/-- A keyboard event as delivered to a button's `keydown` listener.  The code
reads only `keyCode` and `ctrlKey`; the other modifier flags are carried so
that their irrelevance to the handler is a statement, not an assumption. -/
structure KeyEvent where
  keyCode : Nat
  ctrlKey : Bool
  shiftKey : Bool := false
  altKey : Bool := false
  metaKey : Bool := false
deriving Repr, DecidableEq

/-- A keyboard event as delivered to a panel's `keydown` listener.  The event
target is the focused element inside the panel body.  `targetNestedPanel` is
the result of `event.target.querySelector(panelsSelector)`: `querySelector`
matches descendants of the target only, so the enclosing panel is never
found; the field is `none` unless the focused element itself contains a
nested panel-matching descendant. -/
structure PanelKeyEvent where
  keyCode : Nat
  ctrlKey : Bool
  targetNestedPanel : Option PanelState := none
deriving Repr, DecidableEq

/-! ## `document.getElementById` over the container subtree -/

/-- An element of the decorated container that can be found by id: the
container root, the generated button at an ordinal, or the panel at an
ordinal. -/
inductive DocElem where
  | root
  | button (i : Nat)
  | panel (i : Nat)
deriving Repr, DecidableEq

/-- Scan the `(button i, panel i)` pairs in document order for the first
element whose id is `x`; `k` is the ordinal of the first pair. -/
def findInPairs (x : String) : Nat → List (ButtonState × PanelState) → Option DocElem
  | _, [] => none
  | k, (b, p) :: rest =>
    if b.id = x then some (DocElem.button k)
    else if p.id = x then some (DocElem.panel k)
    else findInPairs x (k + 1) rest

/-- `document.getElementById(x)`: the first element in document order whose
id attribute is `x`.  Document order inside the container is root first, then
`button 0, panel 0, button 1, panel 1, ...` (each generated button was
inserted immediately before its panel). -/
def getElementById (s : AccordionState) (x : String) : Option DocElem :=
  if s.rootId = x then some DocElem.root
  else findInPairs x 0 (s.buttons.zip s.panels)

/-- The id attributes of the container subtree in document order. -/
def docIds : List (ButtonState × PanelState) → List String
  | [] => []
  | (b, p) :: rest => b.id :: p.id :: docIds rest

/-- All ids of the decorated container, root included, in document order. -/
def idList (s : AccordionState) : List String :=
  s.rootId :: docIds (s.buttons.zip s.panels)

/-- The ids of the decorated container are pairwise distinct (the spec's
id-uniqueness invariant). -/
def UniqueIds (s : AccordionState) : Prop := (idList s).Nodup

instance (s : AccordionState) : Decidable (UniqueIds s) := by
  unfold UniqueIds; infer_instance

/-! ## Reads used by the handlers -/

/-- `currentButton.getAttribute('aria-controls')` where `currentButton` is
the button at index `i` (the handlers are attached to the generated buttons,
so the index is always in range; the default is never reached there). -/
def ariaControlsAt (s : AccordionState) (i : Nat) : String :=
  (s.buttons[i]?.map fun b => b.ariaControls).getD ""

/-- `currentButton.getAttribute('aria-expanded')` for the button at index
`i`. -/
def ariaExpandedAt (s : AccordionState) (i : Nat) : String :=
  (s.buttons[i]?.map fun b => b.ariaExpanded).getD ""

/-- Write `aria-hidden` on whatever element `document.getElementById`
resolved `aria-controls` to. -/
def setAriaHiddenOn (s : AccordionState) (el : DocElem) (v : String) : AccordionState :=
  match el with
  | .root => { s with rootAriaHidden := some v }
  | .button k =>
    { s with buttons := updateAt s.buttons k (fun b => { b with ariaHidden := some v }) }
  | .panel k =>
    { s with panels := updateAt s.panels k (fun p => { p with ariaHidden := v }) }

/-! ## Event handlers -/

/-- `AriaAccordion.goToHeader(target)` restricted to its synchronous part:
mark `target` selected and write `tabindex = null` (stored as the string
"null", which leaves a button keyboard-reachable).  The deferred
`target.focus()` runs in a later task; when it fires, it raises a separate
focus event, which the step relation models as its own step. -/
def goToHeader (s : AccordionState) (t : Nat) : AccordionState :=
  let buttons :=
    updateAt s.buttons t (fun b => { b with ariaSelected := "true", tabindex := some "null" })
  { s with buttons := buttons }

/-- `focusButtonEventHandler`: the focus listener of button `i`.  Every
button gets `tabindex = "-1"` and `aria-selected = "false"`, then the focused
button gets `aria-selected = "true"` and `tabindex = null` (the string
"null"). -/
def focusButtonEventHandler (s : AccordionState) (i : Nat) : AccordionState :=
  let buttons :=
    updateAt (s.buttons.map fun b => { b with tabindex := some "-1", ariaSelected := "false" }) i
      (fun b => { b with ariaSelected := "true", tabindex := some "null" })
  { s with buttons := buttons }

/-- Lines 221-225 of the click handler:
`this.buttons.forEach(button => button.setAttribute('aria-selected', 'false'))`
then `currentButton.setAttribute('aria-selected', 'true')`. -/
def clickMarkSelected (s : AccordionState) (i : Nat) : AccordionState :=
  let buttons :=
    updateAt (s.buttons.map fun b => { b with ariaSelected := "false" }) i
      (fun b => { b with ariaSelected := "true" })
  { s with buttons := buttons }

/-- Lines 228-235 of the click handler, button side:
`currentButton.setAttribute('aria-expanded', ...)` with "true" when the
`=== 'false'` test succeeded and "false" otherwise. -/
def clickToggleButton (s : AccordionState) (i : Nat) (wasClosed : Bool) : AccordionState :=
  let buttons :=
    updateAt s.buttons i
      (fun b => { b with ariaExpanded := if wasClosed then "true" else "false" })
  { s with buttons := buttons }

/-- Lines 238-250 of the click handler (`multiselectable === false` branch):
every panel other than `currentPanel` gets `aria-hidden="true"` and every
button other than `currentButton` gets `aria-expanded="false"`.
`currentPanel` is whatever element `el` the id lookup produced, so the panel
identity test `currentPanel !== panel` is `el ≠ DocElem.panel k`. -/
def clickCollapseOthers (s : AccordionState) (i : Nat) (el : DocElem) : AccordionState :=
  let panels :=
    mapFromIdx
      (fun k p => if el = DocElem.panel k then p else { p with ariaHidden := "true" })
      0 s.panels
  let s4 : AccordionState := { s with panels := panels }
  let buttons := mapOthers s4.buttons i (fun b => { b with ariaExpanded := "false" })
  { s4 with buttons := buttons }

/-- `clickButtonEventHandler`: the click listener of button `i`, following
the source statement by statement.  `currentPanel` is resolved by id lookup
over the whole document; when the lookup finds nothing,
`currentPanel.setAttribute('aria-hidden', ...)` throws after the
`aria-selected` and `aria-expanded` writes already landed, and nothing later
in the handler runs. -/
def clickButtonEventHandler (opts : AriaAccordionOptions) (s : AccordionState)
    (i : Nat) : AccordionState :=
  let currentPanel? := getElementById s (ariaControlsAt s i)
  let s1 := clickMarkSelected s i
  -- currentButton.getAttribute('aria-expanded') === 'false'
  let wasClosed := ariaExpandedAt s1 i == "false"
  let s2 := clickToggleButton s1 i wasClosed
  match currentPanel? with
  | none => s2
  | some el =>
    -- currentPanel.setAttribute('aria-hidden', ...)
    let s3 := setAriaHiddenOn s2 el (if wasClosed then "false" else "true")
    if opts.multiselectable = false then clickCollapseOthers s3 i el else s3

/-- `keydownButtonEventHandler`: the keydown listener of button `i`.  Returns
the state after the handler together with whether `event.preventDefault()`
was called.  The handler reads no modifier flag other than `ctrlKey`. -/
def keydownButtonEventHandler (opts : AriaAccordionOptions) (s : AccordionState)
    (i : Nat) (e : KeyEvent) : AccordionState × Bool :=
  let n := s.buttons.length
  let keys := directionKeys opts
  let allKeyCode := keys.prev ++ keys.next ++ [keys.first, keys.last]
  if allKeyCode.contains e.keyCode && !e.ctrlKey then
    let buttons1 :=
      s.buttons.map (fun b => { b with tabindex := some "-1", ariaSelected := "false" })
    let s1 : AccordionState := { s with buttons := buttons1 }
    -- `currentButton === firstButton` is the object-identity test against
    -- `this.buttons[0]`; with distinct DOM nodes it is the index test
    -- `i = 0`, and `=== lastButton` is `i = n - 1`.
    let newTarget : Option Nat :=
      if e.keyCode = keyHome then some 0
      else if e.keyCode = keyEnd then some (n - 1)
      else if keys.prev.contains e.keyCode then
        some (if i = 0 then n - 1 else i - 1)
      else if keys.next.contains e.keyCode then
        some (if i = n - 1 then 0 else i + 1)
      else none
    (match newTarget with
     | some t => goToHeader s1 t
     | none => s1,
     true)
  else (s, false)

/-- `keydownPanelEventHandler`: the keydown listener of a panel.  The first
statement resolves `event.target.querySelector(panelsSelector)`; with no
nested panel it is `null` and `panel.getAttribute('aria-labelledby')` throws.
Even when a nested panel exists, `this.root.getElementById` is not a function
on an `Element` and throws.  Both throws happen before the `ctrlKey` test and
before any attribute write, so the handler never mutates the state.  The
`if (event.ctrlKey)` dispatch below the button lookup is kept as written in
the source; it is unreachable. -/
def keydownPanelEventHandler (s : AccordionState)
    (e : PanelKeyEvent) : Except JsError AccordionState := do
  let panel ← match e.targetNestedPanel with
    | some p => Except.ok p
    | none => Except.error JsError.typeErrorNullPanel
  let _labelledby := panel.ariaLabelledby
  let button : Nat ← Except.error JsError.typeErrorNoGetElementById
  let n := s.buttons.length
  if e.ctrlKey then
    let target : Option Nat :=
      if e.keyCode = keyUp then some button
      else if e.keyCode = keyPageUp then
        some (if button = 0 then n - 1 else button - 1)
      else if e.keyCode = keyPageDown then
        some (if button = n - 1 then 0 else button + 1)
      else none
    match target with
    | some t => return goToHeader s t
    | none => return s
  else
    return s

/-- The state observable after a panel keydown event: the handler throws an
uncaught `TypeError` before its first attribute write (see
`keydownPanel_always_throws`), so on error the state is unchanged. -/
def panelKeydownObservedState (s : AccordionState)
    (e : PanelKeyEvent) : AccordionState :=
  match keydownPanelEventHandler s e with
  | .ok s' => s'
  | .error _ => s

/-! ## The event step relation -/

/-- One input event processed by an initialized accordion.  Click, focus and
keydown listeners exist exactly on the generated buttons (`initEvents`
attaches them to the `buttonsSelector` matches, which are the elements of
`this.buttons`), so those events carry an in-range button index.  Panel
keydown events reach the panels' listeners by bubbling from any focused
descendant. -/
inductive Step (opts : AriaAccordionOptions) : AccordionState → AccordionState → Prop
  | click (s : AccordionState) (i : Nat) (hi : i < s.buttons.length) :
      Step opts s (clickButtonEventHandler opts s i)
  | focus (s : AccordionState) (i : Nat) (hi : i < s.buttons.length) :
      Step opts s (focusButtonEventHandler s i)
  | keydownButton (s : AccordionState) (i : Nat) (hi : i < s.buttons.length)
      (e : KeyEvent) :
      Step opts s (keydownButtonEventHandler opts s i e).1
  | keydownPanel (s : AccordionState) (e : PanelKeyEvent) :
      Step opts s (panelKeydownObservedState s e)

/-- Reachability by any finite sequence of input events. -/
inductive Reachable (opts : AriaAccordionOptions) : AccordionState → AccordionState → Prop
  | refl (s : AccordionState) : Reachable opts s s
  | tail {s t u : AccordionState} :
      Reachable opts s t → Step opts t u → Reachable opts s u

/-! ## Observations named by the claims -/

/-- A button is keyboard-reachable (tabindex eligibility) unless its
`tabindex` attribute is the string "-1": absent (`none`) or the invalid value
"null" both leave a `button` element in the tab order. -/
def isReachable (b : ButtonState) : Bool := b.tabindex ≠ some "-1"

/-- How many toggle buttons are keyboard-reachable. -/
def reachableCount (s : AccordionState) : Nat := s.buttons.countP isReachable

/-- A panel is expanded (visible) when its `aria-hidden` attribute is
"false". -/
def isOpenPanel (p : PanelState) : Bool := p.ariaHidden = "false"

/-- How many panels are expanded. -/
def openPanelCount (s : AccordionState) : Nat := s.panels.countP isOpenPanel

/-- The id-relevant skeleton of a state: the container id, each button's
`(id, aria-controls)` pair and each panel's id.  No event handler writes any
of these after decoration, so the skeleton is invariant under steps. -/
def skeleton (s : AccordionState) : String × List (String × String) × List String :=
  (s.rootId, s.buttons.map (fun b => (b.id, b.ariaControls)), s.panels.map (fun p => p.id))

/-- Structural well-formedness of a decorated state: as many toggles as
panels, and each toggle's `aria-controls` names the id of the panel at the
same ordinal. -/
structure WellFormed (s : AccordionState) : Prop where
  len : s.buttons.length = s.panels.length
  controls : ∀ m : Nat, (s.buttons[m]?.map fun b => b.ariaControls) =
    (s.panels[m]?.map fun p => p.id)

/-- The mirror property of claim C2: the toggle at ordinal `m` reads
expanded exactly when the panel at ordinal `m` reads visible. -/
def Mirror (s : AccordionState) : Prop :=
  ∀ m : Nat, ((s.buttons[m]?.map fun b => b.ariaExpanded) = some "true" ↔
    (s.panels[m]?.map fun p => p.ariaHidden) = some "false")

/-! ## Concrete scenarios used to exercise the definitions -/

/-- The state of a successful decoration (the fallback is never reached in
the concrete scenarios below, all of which decorate successfully). -/
def decorated (opts : AriaAccordionOptions) (rootId : String)
    (ps : List InputPanel) : AccordionState :=
  (initAttributes opts rootId ps).toOption.getD
    { rootId := "", rootAriaHidden := none, buttons := [], panels := [] }

/-- `data-accordion-multiselectable="false"` configuration. -/
def singleSelectConfig : AriaAccordionOptions := { multiselectable := false }

/-- Two plain panels (no ids, headers present, not marked open). -/
def twoPlainPanels : List InputPanel := [{}, {}]

/-- Two panels both marked `data-accordion-open="true"`. -/
def twoOpenPanels : List InputPanel := [{ accordionOpen := true }, { accordionOpen := true }]

/-- Two panels of which only the first is marked open. -/
def oneOpenPanels : List InputPanel := [{ accordionOpen := true }, {}]

/-- One panel with a pre-existing id `"x"`; decorated inside a container whose
id is `"x-0"`, its assigned id collides with the container id. -/
def collidingPanel : List InputPanel := [{ preId := "x" }]

/-- One panel with a pre-existing id `"mypanel"`. -/
def namedPanel : List InputPanel := [{ preId := "mypanel" }]

/-- One panel with no header-matching descendant. -/
def headerlessPanel : List InputPanel := [{ hasHeader := false }]

/-- The state of toggle 1 after an Up keydown on toggle 0 of the decorated
`twoPlainPanels` accordion: marked selected, `tabindex` rewritten to the
string "null". -/
def selectedSecondButton : ButtonState :=
  { id := "acc-1_tab"
    ariaControls := "acc-1"
    ariaExpanded := "false"
    ariaSelected := "true"
    tabindex := some "null"
    ariaHidden := none }

/-! ## Lemmas about the list combinators -/

theorem length_mapFromIdx (f : Nat → α → α) :
    ∀ (k : Nat) (l : List α), (mapFromIdx f k l).length = l.length
  | _, [] => rfl
  | k, _ :: l => by simp [mapFromIdx, length_mapFromIdx f (k + 1) l]

theorem getElem?_mapFromIdx (f : Nat → α → α) :
    ∀ (k j : Nat) (l : List α), (mapFromIdx f k l)[j]? = l[j]?.map (f (k + j))
  | _, _, [] => by simp [mapFromIdx]
  | _, 0, a :: l => by simp [mapFromIdx]
  | k, j + 1, a :: l => by
    have ih := getElem?_mapFromIdx f (k + 1) j l
    simp only [mapFromIdx, List.getElem?_cons_succ, ih]
    rw [show k + 1 + j = k + (j + 1) from by omega]

theorem map_proj_mapFromIdx (g : α → β) (f : Nat → α → α) (h : ∀ k a, g (f k a) = g a) :
    ∀ (k : Nat) (l : List α), (mapFromIdx f k l).map g = l.map g
  | _, [] => rfl
  | k, a :: l => by
    simp [mapFromIdx, h k a, map_proj_mapFromIdx g f h (k + 1) l]

theorem map_proj_map (g : α → β) (f : α → α) (h : ∀ a, g (f a) = g a) :
    ∀ l : List α, (l.map f).map g = l.map g
  | [] => rfl
  | a :: l => by simp [h a, map_proj_map g f h l]

theorem length_updateAt (l : List α) (i : Nat) (f : α → α) :
    (updateAt l i f).length = l.length :=
  length_mapFromIdx _ 0 l

theorem getElem?_updateAt (l : List α) (i : Nat) (f : α → α) (j : Nat) :
    (updateAt l i f)[j]? = if j = i then l[j]?.map f else l[j]? := by
  unfold updateAt
  rw [getElem?_mapFromIdx]
  simp only [Nat.zero_add]
  by_cases h : j = i <;> simp [h]

theorem map_proj_updateAt (g : α → β) (f : α → α) (h : ∀ a, g (f a) = g a)
    (l : List α) (i : Nat) : (updateAt l i f).map g = l.map g :=
  map_proj_mapFromIdx g _ (fun k a => by by_cases hk : k = i <;> simp [hk, h a]) 0 l

theorem length_mapOthers (l : List α) (i : Nat) (f : α → α) :
    (mapOthers l i f).length = l.length :=
  length_mapFromIdx _ 0 l

theorem getElem?_mapOthers (l : List α) (i : Nat) (f : α → α) (j : Nat) :
    (mapOthers l i f)[j]? = if j = i then l[j]? else l[j]?.map f := by
  unfold mapOthers
  rw [getElem?_mapFromIdx]
  simp only [Nat.zero_add]
  by_cases h : j = i <;> simp [h]

theorem map_proj_mapOthers (g : α → β) (f : α → α) (h : ∀ a, g (f a) = g a)
    (l : List α) (i : Nat) : (mapOthers l i f).map g = l.map g :=
  map_proj_mapFromIdx g _ (fun k a => by by_cases hk : k = i <;> simp [hk, h a]) 0 l

theorem getElem?_zip : ∀ (l₁ : List α) (l₂ : List β) (i : Nat),
    (l₁.zip l₂)[i]? = l₁[i]?.bind (fun a => l₂[i]?.map (fun b => (a, b)))
  | [], _, _ => by simp
  | _ :: _, [], _ => by simp
  | a :: l₁, b :: l₂, 0 => by simp
  | a :: l₁, b :: l₂, i + 1 => by
    simp only [List.zip_cons_cons, List.getElem?_cons_succ]
    exact getElem?_zip l₁ l₂ i

theorem length_eq_of_getElem? (l : List α) (l' : List β)
    (h : ∀ m : Nat, l[m]? = none ↔ l'[m]? = none) : l.length = l'.length := by
  apply Nat.le_antisymm
  · have := (h l'.length).mpr (by simp)
    simpa using this
  · have := (h l.length).mp (by simp)
    simpa using this

/-! ## Lemmas about `countP` via `getElem?` -/

theorem countP_eq_zero_of_getElem? (p : α → Bool) :
    ∀ l : List α, (∀ (j : Nat) (a : α), l[j]? = some a → p a = false) → l.countP p = 0
  | [], _ => rfl
  | a :: l, h => by
    have ha : p a = false := h 0 a (by simp)
    rw [List.countP_cons_of_neg p l (by simp [ha])]
    exact countP_eq_zero_of_getElem? p l (fun j b hb => h (j + 1) b (by simpa using hb))

theorem countP_le_one_of_getElem? (p : α → Bool) :
    ∀ (l : List α) (i : Nat), (∀ (j : Nat) (a : α), j ≠ i → l[j]? = some a → p a = false) →
      l.countP p ≤ 1
  | [], _, _ => by simp
  | a :: l, 0, h => by
    have hz : l.countP p = 0 :=
      countP_eq_zero_of_getElem? p l
        (fun j b hb => h (j + 1) b (by omega) (by simpa using hb))
    by_cases ha : p a
    · rw [List.countP_cons_of_pos p l ha, hz]
    · rw [List.countP_cons_of_neg p l ha, hz]; omega
  | a :: l, i + 1, h => by
    have ha : p a = false := h 0 a (by omega) (by simp)
    rw [List.countP_cons_of_neg p l (by simp [ha])]
    exact countP_le_one_of_getElem? p l i
      (fun j b hj hb => h (j + 1) b (by omega) (by simpa using hb))

theorem countP_eq_one_of_getElem? (p : α → Bool) :
    ∀ (l : List α) (i : Nat) (b : α), l[i]? = some b → p b = true →
      (∀ (j : Nat) (a : α), j ≠ i → l[j]? = some a → p a = false) → l.countP p = 1
  | [], i, b, hb, _, _ => by simp at hb
  | a :: l, 0, b, hb, hp, h => by
    have hab : a = b := by simpa using hb
    subst hab
    rw [List.countP_cons_of_pos p l hp]
    have hz : l.countP p = 0 :=
      countP_eq_zero_of_getElem? p l
        (fun j c hc => h (j + 1) c (by omega) (by simpa using hc))
    rw [hz]
  | a :: l, i + 1, b, hb, hp, h => by
    have ha : p a = false := h 0 a (by omega) (by simp)
    rw [List.countP_cons_of_neg p l (by simp [ha])]
    exact countP_eq_one_of_getElem? p l i b (by simpa using hb) hp
      (fun j c hj hc => h (j + 1) c (by omega) (by simpa using hc))

theorem countP_congr_getElem? (p : α → Bool) :
    ∀ l l' : List α, (∀ j : Nat, l[j]?.map p = l'[j]?.map p) → l.countP p = l'.countP p
  | [], [], _ => rfl
  | [], b :: l', h => by have := h 0; simp at this
  | a :: l, [], h => by have := h 0; simp at this
  | a :: l, b :: l', h => by
    have h0 : p a = p b := by have := h 0; simpa using this
    have ih := countP_congr_getElem? p l l' (fun j => by simpa using h (j + 1))
    by_cases ha : p a
    · rw [List.countP_cons_of_pos p l ha, List.countP_cons_of_pos p l' (by rw [← h0]; exact ha), ih]
    · rw [List.countP_cons_of_neg p l ha, List.countP_cons_of_neg p l' (by rw [← h0]; exact ha), ih]

/-! ## The decoration pass, described pointwise -/

theorem initPanels_ok_spec (opts : AriaAccordionOptions) (rootId : String) :
    ∀ (ps : List InputPanel) (k : Nat) (bs : List ButtonState) (pas : List PanelState),
      initPanels opts rootId k ps = .ok (bs, pas) →
      (∀ m : Nat, bs[m]? = ps[m]?.map (fun p => mkButton opts rootId (k + m) p)) ∧
      (∀ m : Nat, pas[m]? = ps[m]?.map (fun p => mkPanel opts rootId (k + m) p))
  | [], k, bs, pas, h => by
    simp only [initPanels, Except.ok.injEq, Prod.mk.injEq] at h
    obtain ⟨h1, h2⟩ := h
    subst h1; subst h2
    exact ⟨fun m => by simp, fun m => by simp⟩
  | p :: ps, k, bs, pas, h => by
    rw [initPanels, initPanel] at h
    by_cases hh : p.hasHeader
    · simp only [hh, if_true] at h
      cases hrec : initPanels opts rootId (k + 1) ps with
      | error e => rw [hrec] at h; exact absurd h (by simp)
      | ok bp =>
        obtain ⟨bs', pas'⟩ := bp
        rw [hrec] at h
        simp only [Except.ok.injEq, Prod.mk.injEq] at h
        obtain ⟨h1, h2⟩ := h
        subst h1; subst h2
        have ih := initPanels_ok_spec opts rootId ps (k + 1) bs' pas' hrec
        constructor
        · intro m
          cases m with
          | zero => simp
          | succ m =>
            simp only [List.getElem?_cons_succ, ih.1 m]
            rw [show k + 1 + m = k + (m + 1) from by omega]
        · intro m
          cases m with
          | zero => simp
          | succ m =>
            simp only [List.getElem?_cons_succ, ih.2 m]
            rw [show k + 1 + m = k + (m + 1) from by omega]
    · simp [hh] at h

theorem initAttributes_ok_spec (opts : AriaAccordionOptions) (rootId : String)
    (ps : List InputPanel) (s : AccordionState)
    (h : initAttributes opts rootId ps = .ok s) :
    s.rootId = rootId ∧ s.rootAriaHidden = none ∧
    (∀ m : Nat, s.buttons[m]? = ps[m]?.map (fun p => mkButton opts rootId m p)) ∧
    (∀ m : Nat, s.panels[m]? = ps[m]?.map (fun p => mkPanel opts rootId m p)) := by
  rw [initAttributes] at h
  cases hrec : initPanels opts rootId 0 ps with
  | error e => rw [hrec] at h; exact absurd h (by simp)
  | ok bp =>
    obtain ⟨bs, pas⟩ := bp
    rw [hrec] at h
    simp only [Except.ok.injEq] at h
    subst h
    have spec := initPanels_ok_spec opts rootId ps 0 bs pas hrec
    refine ⟨rfl, rfl, fun m => ?_, fun m => ?_⟩
    · simpa using spec.1 m
    · simpa using spec.2 m

theorem initAttributes_buttons_length (opts : AriaAccordionOptions) (rootId : String)
    (ps : List InputPanel) (s : AccordionState)
    (h : initAttributes opts rootId ps = .ok s) :
    s.buttons.length = ps.length := by
  have spec := (initAttributes_ok_spec opts rootId ps s h).2.2.1
  exact length_eq_of_getElem? _ _ (fun m => by rw [spec m]; simp [Option.map_eq_none'])

theorem initAttributes_panels_length (opts : AriaAccordionOptions) (rootId : String)
    (ps : List InputPanel) (s : AccordionState)
    (h : initAttributes opts rootId ps = .ok s) :
    s.panels.length = ps.length := by
  have spec := (initAttributes_ok_spec opts rootId ps s h).2.2.2
  exact length_eq_of_getElem? _ _ (fun m => by rw [spec m]; simp [Option.map_eq_none'])

theorem mkButton_tabindex (opts : AriaAccordionOptions) (rootId : String)
    (index : Nat) (p : InputPanel) :
    (mkButton opts rootId index p).tabindex = if index = 0 then none else some "-1" := by
  unfold mkButton
  by_cases h0 : index = 0 <;> by_cases ho : p.accordionOpen <;> simp [h0, ho]

theorem mkButton_ariaExpanded (opts : AriaAccordionOptions) (rootId : String)
    (index : Nat) (p : InputPanel) :
    (mkButton opts rootId index p).ariaExpanded = if p.accordionOpen then "true" else "false" := by
  unfold mkButton
  by_cases h0 : index = 0 <;> by_cases ho : p.accordionOpen <;> simp [h0, ho]

theorem mkButton_ariaControls (opts : AriaAccordionOptions) (rootId : String)
    (index : Nat) (p : InputPanel) :
    (mkButton opts rootId index p).ariaControls = assignedPanelId rootId index p := by
  unfold mkButton
  by_cases h0 : index = 0 <;> by_cases ho : p.accordionOpen <;> simp [h0, ho]

theorem mkButton_id (opts : AriaAccordionOptions) (rootId : String)
    (index : Nat) (p : InputPanel) :
    (mkButton opts rootId index p).id = assignedPanelId rootId index p ++ opts.buttonSuffixId := by
  unfold mkButton
  by_cases h0 : index = 0 <;> by_cases ho : p.accordionOpen <;> simp [h0, ho]

theorem mkPanel_ariaHidden (opts : AriaAccordionOptions) (rootId : String)
    (index : Nat) (p : InputPanel) :
    (mkPanel opts rootId index p).ariaHidden = if p.accordionOpen then "false" else "true" := by
  unfold mkPanel
  by_cases ho : p.accordionOpen <;> simp [ho]

theorem mkPanel_id (opts : AriaAccordionOptions) (rootId : String)
    (index : Nat) (p : InputPanel) :
    (mkPanel opts rootId index p).id = assignedPanelId rootId index p := by
  unfold mkPanel
  by_cases ho : p.accordionOpen <;> simp [ho]

/-! ## The panel keydown handler always throws -/

theorem keydownPanel_throws (s : AccordionState) (e : PanelKeyEvent) :
    keydownPanelEventHandler s e =
      .error (match e.targetNestedPanel with
              | none => JsError.typeErrorNullPanel
              | some _ => JsError.typeErrorNoGetElementById) := by
  unfold keydownPanelEventHandler
  cases e.targetNestedPanel <;> rfl

theorem panelKeydownObservedState_eq (s : AccordionState) (e : PanelKeyEvent) :
    panelKeydownObservedState s e = s := by
  unfold panelKeydownObservedState
  rw [keydownPanel_throws]

/-! ## Exactly-one-reachable machinery -/

theorem reachableCount_eq_tabindex (s : AccordionState) :
    reachableCount s =
      (s.buttons.map (fun b => b.tabindex)).countP (fun t => t ≠ some "-1") := by
  unfold reachableCount
  rw [List.countP_map]
  rfl

/-- After resetting every button to `tabindex="-1"` and then marking target
`t` with `tabindex=null`, exactly the target is reachable.  This is the
common shape of `focusButtonEventHandler` and of the reset-then-`goToHeader`
path of `keydownButtonEventHandler`. -/
theorem reset_then_goto_count (l : List ButtonState) (t : Nat) (ht : t < l.length) :
    (updateAt (l.map fun b => { b with tabindex := some "-1", ariaSelected := "false" }) t
      (fun b => { b with ariaSelected := "true", tabindex := some "null" })).countP
      isReachable = 1 := by
  obtain ⟨b, hb⟩ : ∃ b, l[t]? = some b := ⟨l[t], List.getElem?_eq_getElem ht⟩
  apply countP_eq_one_of_getElem? isReachable _ t
    (b := { b with ariaSelected := "true", tabindex := some "null" })
  · rw [getElem?_updateAt, if_pos rfl, List.getElem?_map, hb]
    rfl
  · simp [isReachable]
  · intro j a hj ha
    rw [getElem?_updateAt, if_neg hj, List.getElem?_map] at ha
    cases hx : l[j]? with
    | none => rw [hx] at ha; simp at ha
    | some x =>
      rw [hx] at ha
      simp only [Option.map_some', Option.some.injEq] at ha
      subst ha
      simp [isReachable]

theorem clickMarkSelected_buttons_tabindex (s : AccordionState) (i : Nat) :
    (clickMarkSelected s i).buttons.map (fun b => b.tabindex) =
      s.buttons.map (fun b => b.tabindex) := by
  simp only [clickMarkSelected]
  rw [map_proj_updateAt (fun b : ButtonState => b.tabindex)
      (fun b : ButtonState => { b with ariaSelected := "true" }) (fun a => rfl),
    map_proj_map (fun b : ButtonState => b.tabindex)
      (fun b : ButtonState => { b with ariaSelected := "false" }) (fun a => rfl)]

theorem clickToggleButton_buttons_tabindex (s : AccordionState) (i : Nat) (w : Bool) :
    (clickToggleButton s i w).buttons.map (fun b => b.tabindex) =
      s.buttons.map (fun b => b.tabindex) := by
  simp only [clickToggleButton]
  rw [map_proj_updateAt (fun b : ButtonState => b.tabindex)
      (fun b : ButtonState => { b with ariaExpanded := if w then "true" else "false" })
      (fun a => rfl)]

theorem setAriaHiddenOn_buttons_tabindex (s : AccordionState) (el : DocElem) (v : String) :
    (setAriaHiddenOn s el v).buttons.map (fun b => b.tabindex) =
      s.buttons.map (fun b => b.tabindex) := by
  cases el with
  | root => rfl
  | button k =>
    simp only [setAriaHiddenOn]
    rw [map_proj_updateAt (fun b : ButtonState => b.tabindex)
        (fun b : ButtonState => { b with ariaHidden := some v }) (fun a => rfl)]
  | panel k => rfl

theorem clickCollapseOthers_buttons_tabindex (s : AccordionState) (i : Nat) (el : DocElem) :
    (clickCollapseOthers s i el).buttons.map (fun b => b.tabindex) =
      s.buttons.map (fun b => b.tabindex) := by
  simp only [clickCollapseOthers]
  rw [map_proj_mapOthers (fun b : ButtonState => b.tabindex)
      (fun b : ButtonState => { b with ariaExpanded := "false" }) (fun a => rfl)]

theorem click_buttons_tabindex (opts : AriaAccordionOptions) (s : AccordionState) (i : Nat) :
    (clickButtonEventHandler opts s i).buttons.map (fun b => b.tabindex) =
      s.buttons.map (fun b => b.tabindex) := by
  simp only [clickButtonEventHandler]
  split
  · rw [clickToggleButton_buttons_tabindex, clickMarkSelected_buttons_tabindex]
  · split
    · rw [clickCollapseOthers_buttons_tabindex, setAriaHiddenOn_buttons_tabindex,
        clickToggleButton_buttons_tabindex, clickMarkSelected_buttons_tabindex]
    · rw [setAriaHiddenOn_buttons_tabindex,
        clickToggleButton_buttons_tabindex, clickMarkSelected_buttons_tabindex]

theorem directionKeys_first (opts : AriaAccordionOptions) :
    (directionKeys opts).first = keyHome := by
  unfold directionKeys
  split <;> rfl

theorem directionKeys_last (opts : AriaAccordionOptions) :
    (directionKeys opts).last = keyEnd := by
  unfold directionKeys
  split <;> rfl

theorem focus_reachableCount (s : AccordionState) (i : Nat) (hi : i < s.buttons.length) :
    reachableCount (focusButtonEventHandler s i) = 1 := by
  simp only [reachableCount, focusButtonEventHandler]
  exact reset_then_goto_count s.buttons i hi

theorem keydownButton_reachableCount (opts : AriaAccordionOptions) (s : AccordionState)
    (i : Nat) (hi : i < s.buttons.length) (e : KeyEvent)
    (h : reachableCount s = 1) :
    reachableCount (keydownButtonEventHandler opts s i e).1 = 1 := by
  simp only [keydownButtonEventHandler]
  split
  · rename_i hguard
    have hmem : e.keyCode ∈ (directionKeys opts).prev ++ (directionKeys opts).next ++
        [(directionKeys opts).first, (directionKeys opts).last] := by
      have := (Bool.and_eq_true _ _).mp hguard
      exact List.elem_iff.mp this.1
    by_cases h1 : e.keyCode = keyHome
    · simp only [h1, if_pos rfl, reachableCount, goToHeader]
      exact reset_then_goto_count s.buttons 0 (by omega)
    · by_cases h2 : e.keyCode = keyEnd
      · simp only [h1, h2, if_neg h1, if_pos rfl, reachableCount, goToHeader]
        exact reset_then_goto_count s.buttons (s.buttons.length - 1) (by omega)
      · by_cases h3 : (directionKeys opts).prev.contains e.keyCode
        · simp only [h1, h2, h3, if_neg h1, if_neg h2, if_pos h3, reachableCount, goToHeader]
          by_cases hz : i = 0
          · simp only [hz, if_pos rfl]
            exact reset_then_goto_count s.buttons (s.buttons.length - 1) (by omega)
          · simp only [hz, if_neg hz]
            exact reset_then_goto_count s.buttons (i - 1) (by omega)
        · by_cases h4 : (directionKeys opts).next.contains e.keyCode
          · simp only [h1, h2, h3, h4, if_neg h1, if_neg h2, if_neg h3, if_pos h4,
              reachableCount, goToHeader]
            by_cases hl : i = s.buttons.length - 1
            · simp only [hl, if_pos rfl]
              exact reset_then_goto_count s.buttons 0 (by omega)
            · simp only [hl, if_neg hl]
              exact reset_then_goto_count s.buttons (i + 1) (by omega)
          · exfalso
            rw [List.mem_append, List.mem_append] at hmem
            rcases hmem with (hp | hn) | hfl
            · exact h3 (List.elem_iff.mpr hp)
            · exact h4 (List.elem_iff.mpr hn)
            · rw [directionKeys_first, directionKeys_last] at hfl
              simp only [List.mem_cons, List.mem_singleton] at hfl
              rcases hfl with hf | hl
              · exact h1 hf
              · exact h2 (by simpa using hl)
  · exact h

theorem step_reachableCount (opts : AriaAccordionOptions) {s t : AccordionState}
    (hstep : Step opts s t) (h : reachableCount s = 1) : reachableCount t = 1 := by
  cases hstep with
  | click i hi =>
    rw [reachableCount_eq_tabindex, click_buttons_tabindex, ← reachableCount_eq_tabindex]
    exact h
  | focus i hi => exact focus_reachableCount s i hi
  | keydownButton i hi e => exact keydownButton_reachableCount opts s i hi e h
  | keydownPanel e => rw [panelKeydownObservedState_eq]; exact h

theorem reachable_preserve (opts : AriaAccordionOptions) (P : AccordionState → Prop)
    (hstep : ∀ u v : AccordionState, P u → Step opts u v → P v) :
    ∀ {s t : AccordionState}, Reachable opts s t → P s → P t := by
  intro s t h hp
  induction h with
  | refl => exact hp
  | tail hr hs ih => exact hstep _ _ ih hs

theorem initAttributes_button_tabindex (opts : AriaAccordionOptions) (rootId : String)
    (ps : List InputPanel) (s : AccordionState)
    (h : initAttributes opts rootId ps = .ok s) :
    ∀ (m : Nat) (b : ButtonState), s.buttons[m]? = some b →
      b.tabindex = if m = 0 then none else some "-1" := by
  intro m b hb
  rw [(initAttributes_ok_spec opts rootId ps s h).2.2.1 m] at hb
  cases hp : ps[m]? with
  | none => rw [hp] at hb; simp at hb
  | some p =>
    rw [hp] at hb
    simp only [Option.map_some', Option.some.injEq] at hb
    subst hb
    exact mkButton_tabindex opts rootId m p

theorem initAttributes_reachableCount (opts : AriaAccordionOptions) (rootId : String)
    (ps : List InputPanel) (s : AccordionState)
    (h : initAttributes opts rootId ps = .ok s) (hne : ps ≠ []) :
    reachableCount s = 1 := by
  obtain ⟨p0, hp0⟩ : ∃ p, ps[0]? = some p := by
    cases ps with
    | nil => exact absurd rfl hne
    | cons p t => exact ⟨p, by simp⟩
  have hb0 : s.buttons[0]? = some (mkButton opts rootId 0 p0) := by
    rw [(initAttributes_ok_spec opts rootId ps s h).2.2.1 0, hp0]
    rfl
  apply countP_eq_one_of_getElem? isReachable s.buttons 0 _ hb0
  · simp [isReachable, mkButton_tabindex]
  · intro j a hj ha
    have := initAttributes_button_tabindex opts rootId ps s h j a ha
    simp [isReachable, this, hj]

/-! ## Panels are untouched by focus and keyboard navigation -/

theorem focus_panels (s : AccordionState) (i : Nat) :
    (focusButtonEventHandler s i).panels = s.panels := rfl

theorem keydownButton_panels (opts : AriaAccordionOptions) (s : AccordionState)
    (i : Nat) (e : KeyEvent) :
    (keydownButtonEventHandler opts s i e).1.panels = s.panels := by
  simp only [keydownButtonEventHandler]
  split
  · split <;> rfl
  · rfl

theorem keydownButton_buttons_expanded (opts : AriaAccordionOptions) (s : AccordionState)
    (i : Nat) (e : KeyEvent) :
    (keydownButtonEventHandler opts s i e).1.buttons.map (fun b => b.ariaExpanded) =
      s.buttons.map (fun b => b.ariaExpanded) := by
  simp only [keydownButtonEventHandler]
  split
  · split
    · simp only [goToHeader]
      rw [map_proj_updateAt (fun b : ButtonState => b.ariaExpanded)
          (fun b : ButtonState => { b with ariaSelected := "true", tabindex := some "null" })
          (fun a => rfl),
        map_proj_map (fun b : ButtonState => b.ariaExpanded)
          (fun b : ButtonState => { b with tabindex := some "-1", ariaSelected := "false" })
          (fun a => rfl)]
    · rw [map_proj_map (fun b : ButtonState => b.ariaExpanded)
          (fun b : ButtonState => { b with tabindex := some "-1", ariaSelected := "false" })
          (fun a => rfl)]
  · rfl

/-! ## Open-panel counting -/

theorem countP_eq_countP_of_getElem? (p : α → Bool) (q : β → Bool) :
    ∀ (l : List α) (l' : List β), (∀ m : Nat, l[m]?.map p = l'[m]?.map q) →
      l.countP p = l'.countP q
  | [], [], _ => rfl
  | [], b :: l', h => by have := h 0; simp at this
  | a :: l, [], h => by have := h 0; simp at this
  | a :: l, b :: l', h => by
    have h0 : p a = q b := by have := h 0; simpa using this
    have ih := countP_eq_countP_of_getElem? p q l l' (fun m => by simpa using h (m + 1))
    by_cases ha : p a
    · rw [List.countP_cons_of_pos p l ha,
        List.countP_cons_of_pos q l' (by rw [← h0]; exact ha), ih]
    · rw [List.countP_cons_of_neg p l ha,
        List.countP_cons_of_neg q l' (by rw [← h0]; exact ha), ih]

theorem initAttributes_openPanelCount (opts : AriaAccordionOptions) (rootId : String)
    (ps : List InputPanel) (s : AccordionState)
    (h : initAttributes opts rootId ps = .ok s) :
    openPanelCount s = ps.countP (fun p => p.accordionOpen) := by
  unfold openPanelCount
  refine countP_eq_countP_of_getElem? isOpenPanel
    (fun p : InputPanel => p.accordionOpen) s.panels ps (fun m => ?_)
  rw [(initAttributes_ok_spec opts rootId ps s h).2.2.2 m]
  cases hp : ps[m]? with
  | none => rfl
  | some p =>
    simp only [Option.map_some', Option.some.injEq]
    by_cases ho : p.accordionOpen <;> simp [isOpenPanel, mkPanel_ariaHidden, ho]

theorem collapseOthers_openPanelCount (s : AccordionState) (i : Nat) (el : DocElem) :
    openPanelCount (clickCollapseOthers s i el) ≤ 1 := by
  have hpan : (clickCollapseOthers s i el).panels =
      mapFromIdx (fun k p => if el = DocElem.panel k then p
        else { p with ariaHidden := "true" }) 0 s.panels := rfl
  unfold openPanelCount
  rw [hpan]
  apply countP_le_one_of_getElem? isOpenPanel _
    (match el with | DocElem.panel t => t | _ => 0)
  intro j a hj ha
  rw [getElem?_mapFromIdx] at ha
  simp only [Nat.zero_add] at ha
  cases hx : s.panels[j]? with
  | none => rw [hx] at ha; simp at ha
  | some x =>
    rw [hx] at ha
    simp only [Option.map_some', Option.some.injEq] at ha
    by_cases hels : el = DocElem.panel j
    · exfalso
      subst hels
      exact hj rfl
    · rw [if_neg hels] at ha
      subst ha
      simp [isOpenPanel]

theorem click_openPanelCount (opts : AriaAccordionOptions) (s : AccordionState) (i : Nat)
    (hm : opts.multiselectable = false) (h : openPanelCount s ≤ 1) :
    openPanelCount (clickButtonEventHandler opts s i) ≤ 1 := by
  simp only [clickButtonEventHandler]
  split
  · exact h
  · rw [if_pos hm]
    exact collapseOthers_openPanelCount _ i _

theorem step_openPanelCount (opts : AriaAccordionOptions)
    (hm : opts.multiselectable = false) {s t : AccordionState}
    (hstep : Step opts s t) (h : openPanelCount s ≤ 1) : openPanelCount t ≤ 1 := by
  cases hstep with
  | click i hi => exact click_openPanelCount opts s i hm h
  | focus i hi => exact h
  | keydownButton i hi e =>
    unfold openPanelCount
    rw [keydownButton_panels]
    exact h
  | keydownPanel e =>
    rw [panelKeydownObservedState_eq]
    exact h

/-! ## Claim theorems -/

/-- Claim C3 (confirmed): for every decorated accordion with at least one
panel, every state reachable by any sequence of click, focus, button-keydown
and panel-keydown events has exactly one keyboard-reachable toggle button,
and immediately after decoration the reachable toggle is the one at
ordinal 0. -/
theorem claim_c3_single_reachable (opts : AriaAccordionOptions) (rootId : String)
    (ps : List InputPanel) (s₀ s : AccordionState)
    (hinit : initAttributes opts rootId ps = .ok s₀) (hne : ps ≠ [])
    (hr : Reachable opts s₀ s) :
    reachableCount s = 1 ∧
      ∀ (i : Nat) (b : ButtonState), s₀.buttons[i]? = some b →
        (isReachable b = true ↔ i = 0) := by
  constructor
  · exact reachable_preserve opts (fun u => reachableCount u = 1)
      (fun u v hu hstep => step_reachableCount opts hstep hu) hr
      (initAttributes_reachableCount opts rootId ps s₀ hinit hne)
  · intro i b hb
    have ht := initAttributes_button_tabindex opts rootId ps s₀ hinit i b hb
    constructor
    · intro hre
      by_contra hi
      simp [isReachable, ht, hi] at hre
    · intro hi
      subst hi
      simp [isReachable, ht]

/-- Witness for C3: the two-panel accordion decorated with the default
configuration has exactly one reachable toggle. -/
theorem claim_c3_single_reachable_witness :
    reachableCount (decorated defaultConfig "acc" twoPlainPanels) = 1 :=
  (claim_c3_single_reachable defaultConfig "acc" twoPlainPanels
    (decorated defaultConfig "acc" twoPlainPanels)
    (decorated defaultConfig "acc" twoPlainPanels)
    (by rfl) (by decide) (Reachable.refl _)).1

/-- Claim C4 (code bug): a Ctrl+Up keydown delivered to a panel with input
focus inside the panel body (so `event.target.querySelector(panelsSelector)`
finds nothing) makes the handler throw a `TypeError` at the null panel
dereference instead of moving focus to the owning toggle. -/
theorem claim_c4_ctrl_up_throws (s : AccordionState) :
    keydownPanelEventHandler s
      { keyCode := keyUp, ctrlKey := true, targetNestedPanel := none } =
      .error JsError.typeErrorNullPanel := by
  rw [keydownPanel_throws]

/-- Claim C5 (code bug): the panel keydown handler never completes normally:
every keydown that bubbles to a panel throws a `TypeError` (null panel
lookup, or `getElementById` called on an `Element`), so the code does not
ignore unexpected runtime events — it raises. -/
theorem claim_c5_panel_keydown_always_throws (s : AccordionState) (e : PanelKeyEvent) :
    (keydownPanelEventHandler s e).toOption = none := by
  rw [keydownPanel_throws]
  rfl

/-- Claim C1 (amended): when `multiselectable = false` and at most one panel
carries the open-by-default marker, every state reachable from the decorated
initial state by any sequence of click, focus and key events has at most one
expanded panel.  Each handler runs to completion between observations, so
the collapse of the previously open panel and the expansion of the clicked
one happen in the same step. -/
theorem claim_c1_single_open (opts : AriaAccordionOptions) (rootId : String)
    (ps : List InputPanel) (s₀ s : AccordionState)
    (hm : opts.multiselectable = false)
    (hmarks : ps.countP (fun p => p.accordionOpen) ≤ 1)
    (hinit : initAttributes opts rootId ps = .ok s₀)
    (hr : Reachable opts s₀ s) :
    openPanelCount s ≤ 1 := by
  have h0 : openPanelCount s₀ ≤ 1 := by
    rw [initAttributes_openPanelCount opts rootId ps s₀ hinit]
    exact hmarks
  exact reachable_preserve opts (fun u => openPanelCount u ≤ 1)
    (fun u v hu hstep => step_openPanelCount opts hm hstep hu) hr h0

/-- Witness for C1: a single-select accordion with one open-marked panel. -/
theorem claim_c1_single_open_witness :
    openPanelCount (decorated singleSelectConfig "acc" oneOpenPanels) ≤ 1 :=
  claim_c1_single_open singleSelectConfig "acc" oneOpenPanels
    (decorated singleSelectConfig "acc" oneOpenPanels)
    (decorated singleSelectConfig "acc" oneOpenPanels)
    (by rfl) (by decide) (by rfl) (Reachable.refl _)

/-- Claim C1 as stated is falsified by the initial state itself: with
`multiselectable = false` and two panels marked `data-accordion-open="true"`,
the decorated state — reachable by the empty event sequence — has two
expanded panels. -/
theorem claim_c1_counterexample :
    initAttributes singleSelectConfig "acc" twoOpenPanels =
      .ok (decorated singleSelectConfig "acc" twoOpenPanels) ∧
    Reachable singleSelectConfig (decorated singleSelectConfig "acc" twoOpenPanels)
      (decorated singleSelectConfig "acc" twoOpenPanels) ∧
    openPanelCount (decorated singleSelectConfig "acc" twoOpenPanels) = 2 :=
  ⟨by rfl, Reachable.refl _, by rfl⟩

/-- Claim C10 (confirmed): a keydown handled on a toggle button leaves every
panel attribute untouched and every button's `aria-expanded` unchanged:
keyboard navigation between toggles never expands or collapses a panel.
Stated for every key event, directional or not, modified or not. -/
theorem claim_c10_keyboard_frame (opts : AriaAccordionOptions) (s : AccordionState)
    (i : Nat) (e : KeyEvent) :
    (keydownButtonEventHandler opts s i e).1.panels = s.panels ∧
    (keydownButtonEventHandler opts s i e).1.buttons.map (fun b => b.ariaExpanded) =
      s.buttons.map (fun b => b.ariaExpanded) :=
  ⟨keydownButton_panels opts s i e, keydownButton_buttons_expanded opts s i e⟩

/-- Claim C9 (amended): the only modifier the button keydown handler
consults is Ctrl.  With Ctrl held it neither recomputes a target, nor
changes any state, nor calls `preventDefault`; the Shift, Alt and Meta flags
have no influence on the handler at all. -/
theorem claim_c9_ctrl_only (opts : AriaAccordionOptions) (s : AccordionState)
    (i : Nat) (e : KeyEvent) :
    (e.ctrlKey = true → keydownButtonEventHandler opts s i e = (s, false)) ∧
    keydownButtonEventHandler opts s i e =
      keydownButtonEventHandler opts s i
        { e with shiftKey := false, altKey := false, metaKey := false } := by
  constructor
  · intro hc
    simp [keydownButtonEventHandler, hc]
  · rfl

/-- Witness for C9: Ctrl+Down on the first toggle of a decorated two-panel
accordion is a complete no-op. -/
theorem claim_c9_ctrl_only_witness :
    keydownButtonEventHandler defaultConfig (decorated defaultConfig "acc" twoPlainPanels) 0
      { keyCode := keyDown, ctrlKey := true } =
      (decorated defaultConfig "acc" twoPlainPanels, false) :=
  (claim_c9_ctrl_only defaultConfig (decorated defaultConfig "acc" twoPlainPanels) 0
    { keyCode := keyDown, ctrlKey := true }).1 rfl

/-- Claim C9 as stated is false: Shift is a modifier key, yet Shift+Down on
toggle 0 still recomputes the target, rewrites the toggles' selected and
reachable state, and suppresses the default behavior — the handler checks
only `ctrlKey`. -/
theorem claim_c9_counterexample :
    (keydownButtonEventHandler defaultConfig (decorated defaultConfig "acc" twoPlainPanels) 0
        { keyCode := keyDown, ctrlKey := false, shiftKey := true }).2 = true ∧
    (keydownButtonEventHandler defaultConfig (decorated defaultConfig "acc" twoPlainPanels) 0
        { keyCode := keyDown, ctrlKey := false, shiftKey := true }).1 ≠
      decorated defaultConfig "acc" twoPlainPanels := by
  constructor
  · rfl
  · decide

/-- Pointwise form of the reset-then-`goToHeader` shape: after every button
is reset and target `t` is marked, a button is selected-and-reachable
exactly when it is the target. -/
theorem reset_then_goto_getElem? (l : List ButtonState) (t : Nat) :
    ∀ (j : Nat) (b : ButtonState),
      (updateAt (l.map fun b => { b with tabindex := some "-1", ariaSelected := "false" }) t
        (fun b => { b with ariaSelected := "true", tabindex := some "null" }))[j]? = some b →
      ((b.ariaSelected = "true" ∧ isReachable b = true) ↔ j = t) := by
  intro j b hb
  rw [getElem?_updateAt, List.getElem?_map] at hb
  by_cases hj : j = t
  · subst hj
    rw [if_pos rfl] at hb
    cases hx : l[j]? with
    | none => rw [hx] at hb; simp at hb
    | some x =>
      rw [hx] at hb
      simp only [Option.map_some', Option.some.injEq] at hb
      subst hb
      simp [isReachable]
  · rw [if_neg hj] at hb
    cases hx : l[j]? with
    | none => rw [hx] at hb; simp at hb
    | some x =>
      rw [hx] at hb
      simp only [Option.map_some', Option.some.injEq] at hb
      subst hb
      simp [hj]

/-- Key-set facts: a `prev` key is neither Home nor End and is recognized by
`contains`; symmetrically for `next`, which moreover is never in `prev`. -/
theorem prev_key_facts (opts : AriaAccordionOptions) (k : Nat)
    (hk : k ∈ (directionKeys opts).prev) :
    k ≠ keyHome ∧ k ≠ keyEnd ∧ (directionKeys opts).prev.contains k = true := by
  refine ⟨?_, ?_, List.elem_iff.mpr hk⟩ <;>
    · intro hEq
      subst hEq
      unfold directionKeys at hk
      by_cases hd : opts.direction = "ltr" <;>
        simp [hd, ltrKeys, rtlKeys, keyUp, keyDown, keyLeft, keyRight, keyHome, keyEnd] at hk

theorem next_key_facts (opts : AriaAccordionOptions) (k : Nat)
    (hk : k ∈ (directionKeys opts).next) :
    k ≠ keyHome ∧ k ≠ keyEnd ∧ (directionKeys opts).prev.contains k = false ∧
      (directionKeys opts).next.contains k = true := by
  refine ⟨?_, ?_, ?_, List.elem_iff.mpr hk⟩
  · intro hEq
    subst hEq
    unfold directionKeys at hk
    by_cases hd : opts.direction = "ltr" <;>
      simp [hd, ltrKeys, rtlKeys, keyUp, keyDown, keyLeft, keyRight, keyHome, keyEnd] at hk
  · intro hEq
    subst hEq
    unfold directionKeys at hk
    by_cases hd : opts.direction = "ltr" <;>
      simp [hd, ltrKeys, rtlKeys, keyUp, keyDown, keyLeft, keyRight, keyHome, keyEnd] at hk
  · unfold directionKeys at hk ⊢
    by_cases hd : opts.direction = "ltr" <;>
      · simp only [hd] at hk ⊢
        simp [ltrKeys, rtlKeys, keyUp, keyDown, keyLeft, keyRight] at hk
        rcases hk with h | h <;>
          simp [h, ltrKeys, rtlKeys, List.contains, keyUp, keyDown, keyLeft, keyRight]

/-- The guard of the button keydown handler accepts any unmodified
directional key. -/
theorem keydown_guard_true (opts : AriaAccordionOptions) (k : Nat)
    (hk : k ∈ (directionKeys opts).prev ++ (directionKeys opts).next ++
      [(directionKeys opts).first, (directionKeys opts).last]) :
    (((directionKeys opts).prev ++ (directionKeys opts).next ++
      [(directionKeys opts).first, (directionKeys opts).last]).contains k && !false) = true := by
  simp only [Bool.not_false, Bool.and_true]
  exact List.elem_iff.mpr hk

/-- Claim C7 (confirmed): directional navigation wraps around: an unmodified
`prev` key on the first toggle moves selected/reachable to the last toggle,
and an unmodified `next` key on the last toggle moves selected/reachable to
the first one. -/
theorem claim_c7_circular (opts : AriaAccordionOptions) (s : AccordionState)
    (kp kn : Nat) (_hne : s.buttons ≠ [])
    (hkp : kp ∈ (directionKeys opts).prev)
    (hkn : kn ∈ (directionKeys opts).next) :
    (∀ (j : Nat) (b : ButtonState),
      (keydownButtonEventHandler opts s 0
          { keyCode := kp, ctrlKey := false }).1.buttons[j]? = some b →
      ((b.ariaSelected = "true" ∧ isReachable b = true) ↔ j = s.buttons.length - 1)) ∧
    (∀ (j : Nat) (b : ButtonState),
      (keydownButtonEventHandler opts s (s.buttons.length - 1)
          { keyCode := kn, ctrlKey := false }).1.buttons[j]? = some b →
      ((b.ariaSelected = "true" ∧ isReachable b = true) ↔ j = 0)) := by
  obtain ⟨hph, hpe, hpc⟩ := prev_key_facts opts kp hkp
  obtain ⟨hnh, hne', hnp, hnc⟩ := next_key_facts opts kn hkn
  constructor
  · simp only [keydownButtonEventHandler]
    split
    · simp only [hph, hpe, hpc, if_neg hph, if_neg hpe, if_true, if_pos rfl]
      simp only [goToHeader]
      exact reset_then_goto_getElem? s.buttons (s.buttons.length - 1)
    · rename_i hguard
      exact absurd (keydown_guard_true opts kp (by simp [hkp])) hguard
  · simp only [keydownButtonEventHandler]
    split
    · simp only [hnh, hne', hnp, hnc, if_neg hnh, if_neg hne', if_true, if_pos rfl,
        Bool.false_eq_true, if_false]
      simp only [goToHeader]
      exact reset_then_goto_getElem? s.buttons 0
    · rename_i hguard
      exact absurd (keydown_guard_true opts kn (by simp [hkn])) hguard

/-- Witness for C7: after Up on toggle 0 of a decorated two-panel LTR
accordion, toggle 1 (the last one) is the selected-and-reachable one. -/
theorem claim_c7_circular_witness :
    ((selectedSecondButton.ariaSelected = "true" ∧
      isReachable selectedSecondButton = true) ↔
      1 = (decorated defaultConfig "acc" twoPlainPanels).buttons.length - 1) :=
  (claim_c7_circular defaultConfig (decorated defaultConfig "acc" twoPlainPanels)
    keyUp keyDown (by decide) (by decide) (by decide)).1 1 selectedSecondButton (by rfl)

/-- `initPanels` aborts with the null-header `TypeError` at the first panel
lacking a header. -/
theorem initPanels_error_noHeader (opts : AriaAccordionOptions) (rootId : String) :
    ∀ (ps : List InputPanel) (k j : Nat) (p : InputPanel),
      ps[j]? = some p → p.hasHeader = false →
      (∀ (j' : Nat) (p' : InputPanel), j' < j → ps[j']? = some p' → p'.hasHeader = true) →
      initPanels opts rootId k ps = .error (.typeErrorNullHeader (k + j))
  | [], _, j, p, hp, _, _ => by simp at hp
  | p0 :: ps, k, 0, p, hp, hno, _ => by
    have : p0 = p := by simpa using hp
    subst this
    rw [initPanels, initPanel, if_neg (by simp [hno])]
    simp
  | p0 :: ps, k, j + 1, p, hp, hno, hfirst => by
    have h0 : p0.hasHeader = true := hfirst 0 p0 (by omega) (by simp)
    have ih := initPanels_error_noHeader opts rootId ps (k + 1) j p (by simpa using hp) hno
      (fun j' p' hj' hp' => hfirst (j' + 1) p' (by omega) (by simpa using hp'))
    rw [initPanels, initPanel, if_pos (by simp [h0]), ih]
    rw [show k + 1 + j = k + (j + 1) from by omega]

/-- Claim C8 (amended): decoration does fail when some panel has no
header-matching descendant, but with the `TypeError` of the null header
dereference — raised at the first such panel — and never with a
`MissingHeaderError`, which exists nowhere in the source. -/
theorem claim_c8_missing_header (opts : AriaAccordionOptions) (rootId : String)
    (ps : List InputPanel) (j : Nat) (p : InputPanel)
    (hp : ps[j]? = some p) (hno : p.hasHeader = false)
    (hfirst : ∀ (j' : Nat) (p' : InputPanel), j' < j → ps[j']? = some p' →
      p'.hasHeader = true) :
    initAttributes opts rootId ps = .error (.typeErrorNullHeader j) ∧
    ∀ e : JsError, initAttributes opts rootId ps = .error e → e.isMissingHeader = false := by
  have h := initPanels_error_noHeader opts rootId ps 0 j p hp hno hfirst
  simp only [Nat.zero_add] at h
  have hmain : initAttributes opts rootId ps = .error (.typeErrorNullHeader j) := by
    unfold initAttributes
    rw [h]
  refine ⟨hmain, fun e he => ?_⟩
  rw [hmain] at he
  injection he with h
  rw [← h]
  rfl

/-- Witness for C8: a one-panel container whose panel has no header. -/
theorem claim_c8_missing_header_witness :
    initAttributes defaultConfig "acc" headerlessPanel =
      .error (.typeErrorNullHeader 0) :=
  (claim_c8_missing_header defaultConfig "acc" headerlessPanel 0
    { preId := "", hasHeader := false, accordionOpen := false }
    (by rfl) rfl (fun j' p' hj' _ => absurd hj' (by omega))).1

/-- Claim C8 as stated is false at a concrete headerless panel: decoration
raises the null-header `TypeError`, which is not a `MissingHeaderError`. -/
theorem claim_c8_counterexample :
    initAttributes defaultConfig "acc" headerlessPanel =
      .error (JsError.typeErrorNullHeader 0) ∧
    (JsError.typeErrorNullHeader 0).isMissingHeader = false :=
  ⟨by rfl, rfl⟩

/-- Claim C6 (amended): the id assigned to the panel at ordinal `i` is the
panel's pre-existing id (or, when it has none, the container id) with
`"-" ++ i` appended — the ordinal suffix is appended even when the panel
already has an id — and the generated toggle's id is the assigned panel id
followed by the configured button id suffix. -/
theorem claim_c6_assigned_ids (opts : AriaAccordionOptions) (rootId : String)
    (ps : List InputPanel) (s : AccordionState)
    (hinit : initAttributes opts rootId ps = .ok s) :
    ∀ (i : Nat) (p : InputPanel) (b : ButtonState) (pa : PanelState),
      ps[i]? = some p → s.buttons[i]? = some b → s.panels[i]? = some pa →
      pa.id = jsOr p.preId rootId ++ "-" ++ Nat.repr i ∧
      b.id = pa.id ++ opts.buttonSuffixId := by
  intro i p b pa hp hb hpa
  rw [(initAttributes_ok_spec opts rootId ps s hinit).2.2.1 i, hp] at hb
  rw [(initAttributes_ok_spec opts rootId ps s hinit).2.2.2 i, hp] at hpa
  simp only [Option.map_some', Option.some.injEq] at hb hpa
  subst hb
  subst hpa
  refine ⟨mkPanel_id opts rootId i p, ?_⟩
  rw [mkButton_id, mkPanel_id]

/-- Witness for C6 at a one-panel container with a pre-existing panel id. -/
theorem claim_c6_assigned_ids_witness :
    ("mypanel-0" : String) = jsOr "mypanel" "acc" ++ "-" ++ Nat.repr 0 ∧
    ("mypanel-0_tab" : String) = "mypanel-0" ++ defaultConfig.buttonSuffixId :=
  claim_c6_assigned_ids defaultConfig "acc" namedPanel
    (decorated defaultConfig "acc" namedPanel) (by rfl) 0
    { preId := "mypanel", hasHeader := true, accordionOpen := false }
    { id := "mypanel-0_tab", ariaControls := "mypanel-0", ariaExpanded := "false",
      ariaSelected := "false", tabindex := none, ariaHidden := none }
    { id := "mypanel-0", ariaLabelledby := "mypanel-0_tab", ariaHidden := "true" }
    (by rfl) (by rfl) (by rfl)

/-- Claim C6 as stated is false: a panel with pre-existing id "mypanel" at
ordinal 0 is assigned the id "mypanel-0", not its pre-existing id. -/
theorem claim_c6_counterexample :
    (decorated defaultConfig "acc" namedPanel).panels.map (fun p => p.id) = ["mypanel-0"] ∧
    ("mypanel-0" : String) ≠ "mypanel" :=
  ⟨by rfl, by decide⟩

/-! ## The id skeleton is invariant and makes `getElementById` resolve -/

theorem getElem?_map_congr (f : α → β) (l l' : List α) (h : l.map f = l'.map f) (m : Nat) :
    l[m]?.map f = l'[m]?.map f := by
  rw [← List.getElem?_map, ← List.getElem?_map, h]

theorem buttons_pair_map_of_skeleton (s s' : AccordionState) (h : skeleton s' = skeleton s) :
    s'.buttons.map (fun b => (b.id, b.ariaControls)) =
      s.buttons.map (fun b => (b.id, b.ariaControls)) :=
  congrArg (fun t : String × List (String × String) × List String => t.2.1) h

theorem panels_id_map_of_skeleton (s s' : AccordionState) (h : skeleton s' = skeleton s) :
    s'.panels.map (fun p => p.id) = s.panels.map (fun p => p.id) :=
  congrArg (fun t : String × List (String × String) × List String => t.2.2) h

theorem rootId_of_skeleton (s s' : AccordionState) (h : skeleton s' = skeleton s) :
    s'.rootId = s.rootId :=
  congrArg (fun t : String × List (String × String) × List String => t.1) h

theorem buttons_id_map_of_skeleton (s s' : AccordionState) (h : skeleton s' = skeleton s) :
    s'.buttons.map (fun b => b.id) = s.buttons.map (fun b => b.id) := by
  have h2 := congrArg (List.map Prod.fst) (buttons_pair_map_of_skeleton s s' h)
  simpa [List.map_map, Function.comp_def] using h2

theorem buttons_controls_map_of_skeleton (s s' : AccordionState)
    (h : skeleton s' = skeleton s) :
    s'.buttons.map (fun b => b.ariaControls) = s.buttons.map (fun b => b.ariaControls) := by
  have h2 := congrArg (List.map Prod.snd) (buttons_pair_map_of_skeleton s s' h)
  simpa [List.map_map, Function.comp_def] using h2

theorem docIds_congr : ∀ (bs bs' : List ButtonState) (ps ps' : List PanelState),
    bs.map (fun b => b.id) = bs'.map (fun b => b.id) →
    ps.map (fun p => p.id) = ps'.map (fun p => p.id) →
    docIds (bs.zip ps) = docIds (bs'.zip ps')
  | [], bs', ps, ps', hb, _ => by
    cases bs' with
    | nil => simp [List.zip]
    | cons b' t' => simp at hb
  | b :: t, bs', ps, ps', hb, hp => by
    cases bs' with
    | nil => simp at hb
    | cons b' t' =>
      simp only [List.map_cons, List.cons.injEq] at hb
      cases ps with
      | nil =>
        cases ps' with
        | nil => simp [List.zip]
        | cons p' u' => simp at hp
      | cons p u =>
        cases ps' with
        | nil => simp at hp
        | cons p' u' =>
          simp only [List.map_cons, List.cons.injEq] at hp
          simp only [List.zip_cons_cons, docIds, hb.1, hp.1]
          exact congrArg (fun x => b'.id :: p'.id :: x) (docIds_congr t t' u u' hb.2 hp.2)

theorem idList_congr (s s' : AccordionState) (h : skeleton s' = skeleton s) :
    idList s' = idList s := by
  unfold idList
  rw [rootId_of_skeleton s s' h,
    docIds_congr s'.buttons s.buttons s'.panels s.panels
      (buttons_id_map_of_skeleton s s' h) (panels_id_map_of_skeleton s s' h)]

theorem uniqueIds_of_skeleton (s s' : AccordionState) (h : skeleton s' = skeleton s)
    (hu : UniqueIds s) : UniqueIds s' := by
  unfold UniqueIds
  rw [idList_congr s s' h]
  exact hu

theorem wellFormed_of_skeleton (s s' : AccordionState) (h : skeleton s' = skeleton s)
    (hwf : WellFormed s) : WellFormed s' := by
  constructor
  · have hb := congrArg List.length (buttons_id_map_of_skeleton s s' h)
    have hp := congrArg List.length (panels_id_map_of_skeleton s s' h)
    simp only [List.length_map] at hb hp
    rw [hb, hp]
    exact hwf.len
  · intro m
    rw [getElem?_map_congr (fun b => b.ariaControls) s'.buttons s.buttons
        (buttons_controls_map_of_skeleton s s' h) m,
      getElem?_map_congr (fun p => p.id) s'.panels s.panels
        (panels_id_map_of_skeleton s s' h) m]
    exact hwf.controls m

theorem docIds_mem_panel : ∀ (l : List (ButtonState × PanelState)) (j : Nat)
    (bp : ButtonState × PanelState), l[j]? = some bp → bp.2.id ∈ docIds l
  | [], j, bp, h => by simp at h
  | x :: l, 0, bp, h => by
    obtain ⟨b, p⟩ := x
    have : (b, p) = bp := by simpa using h
    subst this
    simp [docIds]
  | x :: l, j + 1, bp, h => by
    obtain ⟨b, p⟩ := x
    simp only [docIds, List.mem_cons]
    exact Or.inr (Or.inr (docIds_mem_panel l j bp (by simpa using h)))

theorem findInPairs_panel : ∀ (l : List (ButtonState × PanelState)) (k j : Nat)
    (bp : ButtonState × PanelState), l[j]? = some bp → (docIds l).Nodup →
    findInPairs bp.2.id k l = some (DocElem.panel (k + j))
  | [], _, j, bp, h, _ => by simp at h
  | x :: l, k, 0, bp, h, hnd => by
    obtain ⟨b, p⟩ := x
    have : (b, p) = bp := by simpa using h
    subst this
    have hb : b.id ∉ p.id :: docIds l := (List.nodup_cons.mp hnd).1
    unfold findInPairs
    rw [if_neg ?hbne, if_pos rfl, Nat.add_zero]
    case hbne =>
      intro hEq
      exact hb (by rw [hEq]; exact List.mem_cons_self _ _)
  | x :: l, k, j + 1, bp, h, hnd => by
    obtain ⟨b, p⟩ := x
    have hmem : bp.2.id ∈ docIds l := docIds_mem_panel l j bp (by simpa using h)
    have hb : b.id ∉ p.id :: docIds l := (List.nodup_cons.mp hnd).1
    have hrest := (List.nodup_cons.mp hnd).2
    have hp : p.id ∉ docIds l := (List.nodup_cons.mp hrest).1
    unfold findInPairs
    rw [if_neg ?hbne, if_neg ?hpne,
      findInPairs_panel l (k + 1) j bp (by simpa using h) (List.nodup_cons.mp hrest).2]
    · rw [show k + 1 + j = k + (j + 1) from by omega]
    case hbne =>
      intro hEq
      exact hb (by rw [hEq]; exact List.mem_cons_of_mem _ hmem)
    case hpne =>
      intro hEq
      exact hp (by rw [hEq]; exact hmem)

/-! ## Pointwise descriptions of the click pipeline -/

theorem clickMarkSelected_panels (s : AccordionState) (i : Nat) :
    (clickMarkSelected s i).panels = s.panels := rfl

theorem clickToggleButton_panels (s : AccordionState) (i : Nat) (w : Bool) :
    (clickToggleButton s i w).panels = s.panels := rfl

theorem clickMarkSelected_buttons_getElem? (s : AccordionState) (i m : Nat) :
    (clickMarkSelected s i).buttons[m]? = s.buttons[m]?.map
      (fun b => if m = i then { b with ariaSelected := "true" }
        else { b with ariaSelected := "false" }) := by
  simp only [clickMarkSelected]
  rw [getElem?_updateAt, List.getElem?_map]
  by_cases h : m = i <;> cases ho : s.buttons[m]? <;> simp [h, ho]

theorem clickMarkSelected_buttons_expanded (s : AccordionState) (i : Nat) :
    (clickMarkSelected s i).buttons.map (fun b => b.ariaExpanded) =
      s.buttons.map (fun b => b.ariaExpanded) := by
  simp only [clickMarkSelected]
  rw [map_proj_updateAt (fun b : ButtonState => b.ariaExpanded)
      (fun b : ButtonState => { b with ariaSelected := "true" }) (fun a => rfl),
    map_proj_map (fun b : ButtonState => b.ariaExpanded)
      (fun b : ButtonState => { b with ariaSelected := "false" }) (fun a => rfl)]

theorem focus_buttons_expanded (s : AccordionState) (i : Nat) :
    (focusButtonEventHandler s i).buttons.map (fun b => b.ariaExpanded) =
      s.buttons.map (fun b => b.ariaExpanded) := by
  simp only [focusButtonEventHandler]
  rw [map_proj_updateAt (fun b : ButtonState => b.ariaExpanded)
      (fun b : ButtonState => { b with ariaSelected := "true", tabindex := some "null" })
      (fun a => rfl),
    map_proj_map (fun b : ButtonState => b.ariaExpanded)
      (fun b : ButtonState => { b with tabindex := some "-1", ariaSelected := "false" })
      (fun a => rfl)]

theorem ariaExpandedAt_clickMarkSelected (s : AccordionState) (i : Nat) :
    ariaExpandedAt (clickMarkSelected s i) i = ariaExpandedAt s i := by
  unfold ariaExpandedAt
  rw [getElem?_map_congr (fun b => b.ariaExpanded) (clickMarkSelected s i).buttons s.buttons
      (clickMarkSelected_buttons_expanded s i) i]

theorem clickToggleButton_buttons_getElem? (s : AccordionState) (i : Nat) (w : Bool)
    (m : Nat) :
    (clickToggleButton s i w).buttons[m]? = s.buttons[m]?.map
      (fun b => if m = i then { b with ariaExpanded := if w then "true" else "false" }
        else b) := by
  simp only [clickToggleButton]
  rw [getElem?_updateAt]
  by_cases h : m = i <;> cases ho : s.buttons[m]? <;> simp [h, ho]

theorem setAriaHiddenOn_panelEl_buttons (s : AccordionState) (t : Nat) (v : String) :
    (setAriaHiddenOn s (DocElem.panel t) v).buttons = s.buttons := rfl

theorem setAriaHiddenOn_panelEl_panels_getElem? (s : AccordionState) (t : Nat) (v : String)
    (m : Nat) :
    (setAriaHiddenOn s (DocElem.panel t) v).panels[m]? = s.panels[m]?.map
      (fun p => if m = t then { p with ariaHidden := v } else p) := by
  simp only [setAriaHiddenOn]
  rw [getElem?_updateAt]
  by_cases h : m = t <;> cases ho : s.panels[m]? <;> simp [h, ho]

theorem clickCollapseOthers_buttons_getElem? (s : AccordionState) (i : Nat) (el : DocElem)
    (m : Nat) :
    (clickCollapseOthers s i el).buttons[m]? = s.buttons[m]?.map
      (fun b => if m = i then b else { b with ariaExpanded := "false" }) := by
  have hbtn : (clickCollapseOthers s i el).buttons =
      mapOthers s.buttons i (fun b => { b with ariaExpanded := "false" }) := rfl
  rw [hbtn, getElem?_mapOthers]
  by_cases h : m = i <;> cases ho : s.buttons[m]? <;> simp [h, ho]

theorem clickCollapseOthers_panels_getElem? (s : AccordionState) (i : Nat) (el : DocElem)
    (m : Nat) :
    (clickCollapseOthers s i el).panels[m]? = s.panels[m]?.map
      (fun p => if el = DocElem.panel m then p else { p with ariaHidden := "true" }) := by
  have hpan : (clickCollapseOthers s i el).panels =
      mapFromIdx (fun k p => if el = DocElem.panel k then p
        else { p with ariaHidden := "true" }) 0 s.panels := rfl
  rw [hpan, getElem?_mapFromIdx]
  simp only [Nat.zero_add]

/-! ## The skeleton is preserved by every handler -/

theorem skeleton_clickMarkSelected (s : AccordionState) (i : Nat) :
    skeleton (clickMarkSelected s i) = skeleton s := by
  simp only [skeleton, clickMarkSelected]
  rw [map_proj_updateAt (fun b : ButtonState => (b.id, b.ariaControls))
      (fun b : ButtonState => { b with ariaSelected := "true" }) (fun a => rfl),
    map_proj_map (fun b : ButtonState => (b.id, b.ariaControls))
      (fun b : ButtonState => { b with ariaSelected := "false" }) (fun a => rfl)]

theorem skeleton_clickToggleButton (s : AccordionState) (i : Nat) (w : Bool) :
    skeleton (clickToggleButton s i w) = skeleton s := by
  simp only [skeleton, clickToggleButton]
  rw [map_proj_updateAt (fun b : ButtonState => (b.id, b.ariaControls))
      (fun b : ButtonState => { b with ariaExpanded := if w then "true" else "false" })
      (fun a => rfl)]

theorem skeleton_setAriaHiddenOn (s : AccordionState) (el : DocElem) (v : String) :
    skeleton (setAriaHiddenOn s el v) = skeleton s := by
  cases el with
  | root => rfl
  | button k =>
    simp only [skeleton, setAriaHiddenOn]
    rw [map_proj_updateAt (fun b : ButtonState => (b.id, b.ariaControls))
        (fun b : ButtonState => { b with ariaHidden := some v }) (fun a => rfl)]
  | panel k =>
    simp only [skeleton, setAriaHiddenOn]
    rw [map_proj_updateAt (fun p : PanelState => p.id)
        (fun p : PanelState => { p with ariaHidden := v }) (fun a => rfl)]

theorem skeleton_clickCollapseOthers (s : AccordionState) (i : Nat) (el : DocElem) :
    skeleton (clickCollapseOthers s i el) = skeleton s := by
  simp only [skeleton, clickCollapseOthers]
  rw [map_proj_mapOthers (fun b : ButtonState => (b.id, b.ariaControls))
      (fun b : ButtonState => { b with ariaExpanded := "false" }) (fun a => rfl),
    map_proj_mapFromIdx (fun p : PanelState => p.id)
      (fun k p => if el = DocElem.panel k then p else { p with ariaHidden := "true" })
      (fun k a => by by_cases h : el = DocElem.panel k <;> simp [h]) 0]

theorem skeleton_click (opts : AriaAccordionOptions) (s : AccordionState) (i : Nat) :
    skeleton (clickButtonEventHandler opts s i) = skeleton s := by
  simp only [clickButtonEventHandler]
  split
  · rw [skeleton_clickToggleButton, skeleton_clickMarkSelected]
  · split
    · rw [skeleton_clickCollapseOthers, skeleton_setAriaHiddenOn,
        skeleton_clickToggleButton, skeleton_clickMarkSelected]
    · rw [skeleton_setAriaHiddenOn, skeleton_clickToggleButton, skeleton_clickMarkSelected]

theorem skeleton_focus (s : AccordionState) (i : Nat) :
    skeleton (focusButtonEventHandler s i) = skeleton s := by
  simp only [skeleton, focusButtonEventHandler]
  rw [map_proj_updateAt (fun b : ButtonState => (b.id, b.ariaControls))
      (fun b : ButtonState => { b with ariaSelected := "true", tabindex := some "null" })
      (fun a => rfl),
    map_proj_map (fun b : ButtonState => (b.id, b.ariaControls))
      (fun b : ButtonState => { b with tabindex := some "-1", ariaSelected := "false" })
      (fun a => rfl)]

theorem skeleton_goToHeader (s : AccordionState) (t : Nat) :
    skeleton (goToHeader s t) = skeleton s := by
  simp only [skeleton, goToHeader]
  rw [map_proj_updateAt (fun b : ButtonState => (b.id, b.ariaControls))
      (fun b : ButtonState => { b with ariaSelected := "true", tabindex := some "null" })
      (fun a => rfl)]

theorem skeleton_keydownButton (opts : AriaAccordionOptions) (s : AccordionState)
    (i : Nat) (e : KeyEvent) :
    skeleton (keydownButtonEventHandler opts s i e).1 = skeleton s := by
  simp only [keydownButtonEventHandler]
  split
  · split
    · rw [skeleton_goToHeader]
      simp only [skeleton]
      rw [map_proj_map (fun b : ButtonState => (b.id, b.ariaControls))
          (fun b : ButtonState => { b with tabindex := some "-1", ariaSelected := "false" })
          (fun a => rfl)]
    · simp only [skeleton]
      rw [map_proj_map (fun b : ButtonState => (b.id, b.ariaControls))
          (fun b : ButtonState => { b with tabindex := some "-1", ariaSelected := "false" })
          (fun a => rfl)]
  · rfl

/-! ## The mirror invariant is preserved -/

theorem mirror_of_maps (s s' : AccordionState)
    (hb : s'.buttons.map (fun b => b.ariaExpanded) = s.buttons.map (fun b => b.ariaExpanded))
    (hp : s'.panels.map (fun p => p.ariaHidden) = s.panels.map (fun p => p.ariaHidden))
    (h : Mirror s) : Mirror s' := by
  intro m
  rw [getElem?_map_congr (fun b => b.ariaExpanded) s'.buttons s.buttons hb m,
    getElem?_map_congr (fun p => p.ariaHidden) s'.panels s.panels hp m]
  exact h m

theorem getElementById_resolves_panel (s : AccordionState) (i : Nat) (pa : PanelState)
    (hpa : s.panels[i]? = some pa) (hlen : s.buttons.length = s.panels.length)
    (hu : UniqueIds s) :
    getElementById s pa.id = some (DocElem.panel i) := by
  have hi : i < s.panels.length := by
    by_contra hge
    rw [List.getElem?_eq_none (by omega)] at hpa
    exact absurd hpa (by simp)
  have hib : i < s.buttons.length := by omega
  obtain ⟨b, hb⟩ : ∃ b, s.buttons[i]? = some b :=
    ⟨s.buttons[i], List.getElem?_eq_getElem hib⟩
  have hz : (s.buttons.zip s.panels)[i]? = some (b, pa) := by
    rw [getElem?_zip, hb]
    simp [hpa]
  have hmem : pa.id ∈ docIds (s.buttons.zip s.panels) := docIds_mem_panel _ i (b, pa) hz
  have hnd : (idList s).Nodup := hu
  unfold idList at hnd
  have hroot : s.rootId ≠ pa.id := by
    intro hEq
    exact (List.nodup_cons.mp hnd).1 (by rw [hEq]; exact hmem)
  unfold getElementById
  rw [if_neg hroot]
  have := findInPairs_panel (s.buttons.zip s.panels) 0 i (b, pa) hz (List.nodup_cons.mp hnd).2
  simpa using this

/-- A click on toggle `i` of a well-formed state with unique ids keeps the
mirror property: the id lookup resolves `aria-controls` to the panel at the
same ordinal, the clicked pair is toggled in sync, and in single-select mode
every other pair becomes collapsed on both sides. -/
theorem click_mirror (opts : AriaAccordionOptions) (s : AccordionState) (i : Nat)
    (hi : i < s.buttons.length) (hwf : WellFormed s) (hu : UniqueIds s) (hm : Mirror s) :
    Mirror (clickButtonEventHandler opts s i) := by
  obtain ⟨b, hb⟩ : ∃ b, s.buttons[i]? = some b :=
    ⟨s.buttons[i], List.getElem?_eq_getElem hi⟩
  have hctrl := hwf.controls i
  rw [hb] at hctrl
  cases hpa : s.panels[i]? with
  | none => rw [hpa] at hctrl; simp at hctrl
  | some pa =>
  rw [hpa] at hctrl
  simp only [Option.map_some', Option.some.injEq] at hctrl
  have hcontrolsAt : ariaControlsAt s i = pa.id := by
    unfold ariaControlsAt
    rw [hb]
    simpa using hctrl
  have hlook : getElementById s (ariaControlsAt s i) = some (DocElem.panel i) := by
    rw [hcontrolsAt]
    exact getElementById_resolves_panel s i pa hpa hwf.len hu
  have hw : ariaExpandedAt (clickMarkSelected s i) i = b.ariaExpanded := by
    rw [ariaExpandedAt_clickMarkSelected]
    unfold ariaExpandedAt
    rw [hb]
    rfl
  simp only [clickButtonEventHandler, hlook, hw]
  split
  · -- multiselectable = false: collapse-others branch
    intro m
    rw [clickCollapseOthers_buttons_getElem?, clickCollapseOthers_panels_getElem?,
      setAriaHiddenOn_panelEl_buttons, setAriaHiddenOn_panelEl_panels_getElem?,
      clickToggleButton_buttons_getElem?, clickToggleButton_panels,
      clickMarkSelected_buttons_getElem?, clickMarkSelected_panels]
    by_cases hmi : m = i
    · subst hmi
      rw [hb, hpa]
      cases hwb : (b.ariaExpanded == "false") <;> simp [hwb]
    · cases hbm : s.buttons[m]? <;> cases hpm : s.panels[m]? <;>
        simp [hbm, hpm, hmi, Ne.symm hmi]
  · -- multiselectable = true: only the clicked pair changes
    intro m
    rw [setAriaHiddenOn_panelEl_buttons, setAriaHiddenOn_panelEl_panels_getElem?,
      clickToggleButton_buttons_getElem?, clickToggleButton_panels,
      clickMarkSelected_buttons_getElem?, clickMarkSelected_panels]
    by_cases hmi : m = i
    · subst hmi
      rw [hb, hpa]
      cases hwb : (b.ariaExpanded == "false") <;> simp [hwb]
    · have hmm := hm m
      cases hbm : s.buttons[m]? <;> cases hpm : s.panels[m]? <;>
        rw [hbm, hpm] at hmm <;> simpa [hmi] using hmm

/-- Every step preserves well-formedness, id uniqueness and the mirror
property. -/
theorem step_mirror_inv (opts : AriaAccordionOptions) {s t : AccordionState}
    (hstep : Step opts s t) (h : WellFormed s ∧ UniqueIds s ∧ Mirror s) :
    WellFormed t ∧ UniqueIds t ∧ Mirror t := by
  obtain ⟨hwf, hu, hmr⟩ := h
  have hskel : skeleton t = skeleton s := by
    cases hstep with
    | click i hi => exact skeleton_click opts s i
    | focus i hi => exact skeleton_focus s i
    | keydownButton i hi e => exact skeleton_keydownButton opts s i e
    | keydownPanel e => rw [panelKeydownObservedState_eq]
  refine ⟨wellFormed_of_skeleton s t hskel hwf, uniqueIds_of_skeleton s t hskel hu, ?_⟩
  cases hstep with
  | click i hi => exact click_mirror opts s i hi hwf hu hmr
  | focus i hi =>
    exact mirror_of_maps s _ (focus_buttons_expanded s i) (by rw [focus_panels]) hmr
  | keydownButton i hi e =>
    exact mirror_of_maps s _ (keydownButton_buttons_expanded opts s i e)
      (by rw [keydownButton_panels]) hmr
  | keydownPanel e =>
    rw [panelKeydownObservedState_eq]
    exact hmr

theorem initAttributes_wellFormed (opts : AriaAccordionOptions) (rootId : String)
    (ps : List InputPanel) (s : AccordionState)
    (h : initAttributes opts rootId ps = .ok s) : WellFormed s := by
  constructor
  · rw [initAttributes_buttons_length opts rootId ps s h,
      initAttributes_panels_length opts rootId ps s h]
  · intro m
    rw [(initAttributes_ok_spec opts rootId ps s h).2.2.1 m,
      (initAttributes_ok_spec opts rootId ps s h).2.2.2 m]
    cases hp : ps[m]? with
    | none => rfl
    | some p =>
      simp only [Option.map_some', Option.some.injEq]
      rw [mkButton_ariaControls, mkPanel_id]

theorem initAttributes_mirror (opts : AriaAccordionOptions) (rootId : String)
    (ps : List InputPanel) (s : AccordionState)
    (h : initAttributes opts rootId ps = .ok s) : Mirror s := by
  intro m
  rw [(initAttributes_ok_spec opts rootId ps s h).2.2.1 m,
    (initAttributes_ok_spec opts rootId ps s h).2.2.2 m]
  cases hp : ps[m]? with
  | none => simp
  | some p =>
    simp only [Option.map_some', Option.some.injEq]
    rw [mkButton_ariaExpanded, mkPanel_ariaHidden]
    by_cases ho : p.accordionOpen <;> simp [ho]

/-- Claim C2 (amended): provided the decorated ids are pairwise distinct —
the spec's own id-uniqueness invariant, which the container id or a button
id can defeat — every toggle's `aria-expanded` equals its panel's visibility
(the negation of `aria-hidden`) after decoration and after every reachable
sequence of click, focus and key events. -/
theorem claim_c2_mirror (opts : AriaAccordionOptions) (rootId : String)
    (ps : List InputPanel) (s₀ s : AccordionState)
    (hinit : initAttributes opts rootId ps = .ok s₀)
    (hu : UniqueIds s₀) (hr : Reachable opts s₀ s) (m : Nat) :
    ((s.buttons[m]?.map fun b => b.ariaExpanded) = some "true" ↔
      (s.panels[m]?.map fun p => p.ariaHidden) = some "false") := by
  have h := reachable_preserve opts (fun u => WellFormed u ∧ UniqueIds u ∧ Mirror u)
    (fun u v hu' hstep => step_mirror_inv opts hstep hu') hr
    ⟨initAttributes_wellFormed opts rootId ps s₀ hinit, hu,
      initAttributes_mirror opts rootId ps s₀ hinit⟩
  exact h.2.2 m

/-- Witness for C2: the decorated two-panel accordion (whose ids are
distinct) at ordinal 0. -/
theorem claim_c2_mirror_witness :
    (((decorated defaultConfig "acc" twoPlainPanels).buttons[0]?.map
        fun b => b.ariaExpanded) = some "true" ↔
      ((decorated defaultConfig "acc" twoPlainPanels).panels[0]?.map
        fun p => p.ariaHidden) = some "false") :=
  claim_c2_mirror defaultConfig "acc" twoPlainPanels
    (decorated defaultConfig "acc" twoPlainPanels)
    (decorated defaultConfig "acc" twoPlainPanels)
    (by rfl) (by decide) (Reachable.refl _) 0

/-- Claim C2 as stated is false on an id collision: with container id "x-0"
and one panel with pre-existing id "x", the assigned panel id "x-0" equals
the container id; `document.getElementById` resolves `aria-controls` to the
container (first in document order), so clicking toggle 0 writes
`aria-hidden` on the container, leaves the panel hidden, and the toggle's
expanded state diverges from its panel's visibility. -/
theorem claim_c2_counterexample :
    Reachable defaultConfig (decorated defaultConfig "x-0" collidingPanel)
      (clickButtonEventHandler defaultConfig (decorated defaultConfig "x-0" collidingPanel) 0) ∧
    ((clickButtonEventHandler defaultConfig
        (decorated defaultConfig "x-0" collidingPanel) 0).buttons[0]?.map
      fun b => b.ariaExpanded) = some "true" ∧
    ((clickButtonEventHandler defaultConfig
        (decorated defaultConfig "x-0" collidingPanel) 0).panels[0]?.map
      fun p => p.ariaHidden) = some "true" :=
  ⟨Reachable.tail (Reachable.refl _) (Step.click _ 0 (by decide)), by rfl, by rfl⟩

end AriaAccordion
